import Mathlib

/-!
Shallow embedding of the webhook-to-broker trading bridge
(`webhook_handler.py`, `mt5_trader.py`, `multi_account_manager.py`,
`nlb_enhancements.py`, `routes.py`, `models.py`) in Lean 4.

Modelling conventions:
* Python floats are modelled as rationals (`Rat`).  All numeric literals
  relevant to the claims (0.01, 100, 0.005, ...) are exact in both models
  and the two concrete computations of claim C6 are exact even in binary
  floating point, so no behaviour relevant to a claim is changed.
* A JSON/dict payload value is a `PyVal` (`none`, string or number);
  payloads are association lists with first-key-wins lookup, mirroring
  Python dict access used by the source (`in`, `.get`, `[...]`).
* Python exceptions are modelled by `Except PyExn`.  The *text* of an
  interpreter-generated exception message (e.g. the message of an
  `AttributeError`) is rendered by a fixed stand-in string; no claim
  depends on such text.  Messages built explicitly by the source with
  f-strings are reproduced exactly whenever they only interpolate
  strings and integers.
* The SQLAlchemy session is a pair (committed snapshot, working copy):
  mutations touch the working copy, `commit` publishes it (and may fail,
  which rolls the working copy back and raises), `rollback` restores the
  working copy from the committed snapshot.  A commit-outcome schedule in
  the session models the environment; the empty schedule means every
  commit succeeds.
* The mocked MT5 terminal (`mt5_trader.py` top half) is deterministic
  except for randomised quotes/tickets/positions; those are supplied by a
  `World` record (`symbolInfo`, `orderRet`, `positions`), of which
  `mockWorld` below is the faithful instantiation of the mock with the
  randomness fixed by parameters.
-/

/-- A Python value as it occurs in webhook payloads and dict fields. -/
inductive PyVal where
  | none
  | str (s : String)
  | num (q : Rat)
deriving Repr, DecidableEq

/-- Python truthiness for the values we model (`None`, `str`, `float`). -/
def pyTruthy : PyVal → Bool
  | .none => false
  | .str s => s ≠ ""
  | .num q => q ≠ 0

/-- Python `a or b` (left operand when truthy, otherwise right operand). -/
def pyOr (a b : PyVal) : PyVal := if pyTruthy a then a else b

/-- Modelled Python exceptions raised by the dynamic operations the
pipeline can hit; the payload string is a stand-in for `str(e)`. -/
inductive PyExn where
  | attributeError (msg : String)
  | typeError (msg : String)
  | valueError (msg : String)
  | keyError (msg : String)
deriving Repr, DecidableEq

/-- Stand-in for Python `str(e)` on an exception. -/
def PyExn.text : PyExn → String
  | .attributeError m => m
  | .typeError m => m
  | .valueError m => m
  | .keyError m => m

instance {ε α : Type} [DecidableEq ε] [DecidableEq α] : DecidableEq (Except ε α) := fun x y =>
  match x, y with
  | .ok a, .ok b =>
    if h : a = b then isTrue (by rw [h]) else isFalse (by simp [h])
  | .error a, .error b =>
    if h : a = b then isTrue (by rw [h]) else isFalse (by simp [h])
  | .ok _, .error _ => isFalse (by simp)
  | .error _, .ok _ => isFalse (by simp)

/-- Decimal digit value of a character, if it is a digit. -/
def digitVal? (c : Char) : Option Nat :=
  if c.isDigit then some (c.toNat - 48) else Option.none

/-- Longest leading run of decimal digits, and the rest. -/
def takeDigits : List Char → List Char × List Char
  | [] => ([], [])
  | c :: cs =>
    if c.isDigit then
      let (ds, rest) := takeDigits cs
      (c :: ds, rest)
    else ([], c :: cs)

/-- Value of a digit string (non-digits contribute 0; callers only pass
digit runs produced by `takeDigits`). -/
def natOfDigits (cs : List Char) : Nat :=
  cs.foldl (fun acc c => acc * 10 + ((digitVal? c).getD 0)) 0

/-- Parse an unsigned decimal literal (`15`, `1.`, `.5`, `1.5`). -/
def unsignedRat? (cs : List Char) : Option Rat :=
  let (ip, rest) := takeDigits cs
  match rest with
  | [] => if ip.isEmpty then Option.none else some ((natOfDigits ip : Nat) : Rat)
  | '.' :: rest2 =>
    let (fp, rest3) := takeDigits rest2
    if rest3.isEmpty && !(ip.isEmpty && fp.isEmpty) then
      some ((natOfDigits ip : Nat) + ((natOfDigits fp : Nat) : Rat) / (10 : Rat) ^ fp.length)
    else Option.none
  | _ => Option.none

/-- Python `float(s)` on a string, restricted to plain signed decimal
literals (the only shape the claims exercise). -/
def strToRat? (s : String) : Option Rat :=
  match s.toList with
  | '-' :: cs => (unsignedRat? cs).map (fun q => -q)
  | '+' :: cs => unsignedRat? cs
  | cs => unsignedRat? cs

/-- Python `float(v)`: numbers pass through, numeric strings parse,
everything else raises. -/
def pyFloat : PyVal → Except PyExn Rat
  | .num q => .ok q
  | .str s =>
    match strToRat? s with
    | some q => .ok q
    | Option.none => .error (.valueError ("could not convert string to float: " ++ s))
  | .none => .error (.typeError "float argument must be a string or a real number, not NoneType")

/-- `float(v)` as an option (used where the source swallows the error). -/
def pyFloat? (v : PyVal) : Option Rat := (pyFloat v).toOption

/-- Python `int(s)`-style conversion used by `MT5Trader.connect`
(`int(login)` with `ValueError` caught): signed digit strings parse,
numbers truncate toward zero, `None` raises. -/
def pyInt : PyVal → Except PyExn Int
  | .num q => .ok (q.num / (q.den : Int))
  | .str s =>
    match s.toList with
    | '-' :: cs =>
      let (ds, rest) := takeDigits cs
      if rest.isEmpty && !ds.isEmpty then .ok (-(natOfDigits ds : Int))
      else .error (.valueError ("invalid literal for int: " ++ s))
    | cs =>
      let (ds, rest) := takeDigits cs
      if rest.isEmpty && !ds.isEmpty then .ok ((natOfDigits ds : Nat) : Int)
      else .error (.valueError ("invalid literal for int: " ++ s))
  | .none => .error (.typeError "int argument cannot be NoneType")

/-- ASCII upper-casing (Python `str.upper` on the payloads we model),
written over the character list so that it evaluates by `decide`. -/
def strUpper (s : String) : String := String.mk (s.toList.map Char.toUpper)

/-- Python `v.upper()`: succeeds only on strings. -/
def pyUpper : PyVal → Except PyExn String
  | .str s => .ok (strUpper s)
  | .none => .error (.attributeError "NoneType object has no attribute upper")
  | .num _ => .error (.attributeError "float object has no attribute upper")

/-- Stand-in for Python `str(v)` (only interpolated into messages no
claim checks verbatim, except for plain strings, which render exactly). -/
def pyStr : PyVal → String
  | .none => "None"
  | .str s => s
  | .num q => toString q

/-- A webhook payload / Python dict: association list, first key wins. -/
def Payload := List (String × PyVal)

/-- `k in d`. -/
def Payload.hasKey (d : Payload) (k : String) : Bool :=
  (List.find? (fun kv => kv.1 = k) d).isSome

/-- `d[k]` as an option (`none` when the key is absent). -/
def Payload.get? (d : Payload) (k : String) : Option PyVal :=
  (List.find? (fun kv => kv.1 = k) d).map (·.2)

/-- `d.get(k)` (Python returns `None` when the key is absent). -/
def Payload.getN (d : Payload) (k : String) : PyVal :=
  (Payload.get? d k).getD .none

/-- `d.get(k, default)`. -/
def Payload.getD (d : Payload) (k : String) (v : PyVal) : PyVal :=
  (Payload.get? d k).getD v

/-- Python `round` on a rational: round half to even (banker's rounding),
as used by `round(volume / volume_step)` in `MT5Trader.execute_trade`. -/
def pyRound (q : Rat) : Int :=
  if q - ⌊q⌋ < 1/2 then ⌊q⌋
  else if 1/2 < q - ⌊q⌋ then ⌊q⌋ + 1
  else if ⌊q⌋ % 2 = 0 then ⌊q⌋ else ⌊q⌋ + 1

/-- `mt5_trader.py`: `TRADE_RETCODE_DONE = 10009`. -/
def TRADE_RETCODE_DONE : Int := 10009

/-- `mt5_trader.py`: `ORDER_TYPE_BUY = 0`. -/
def ORDER_TYPE_BUY : Int := 0

/-- `mt5_trader.py`: `ORDER_TYPE_SELL = 1`. -/
def ORDER_TYPE_SELL : Int := 1

/-- The fields of `MockSymbolInfo` that `execute_trade`/`close_position`
read (`bid`, `ask`, `volume_min`, `volume_max`, `volume_step`). -/
structure MockSym where
  bid : Rat
  ask : Rat
  volume_min : Rat
  volume_max : Rat
  volume_step : Rat
deriving Repr, DecidableEq

/-- `MockSymbolInfo.__init__` with the randomised bid fixed to `b`:
`ask = bid + 0.0003`, `volume_min = 0.01`, `volume_max = 100.0`,
`volume_step = 0.01`. -/
def mockSymbolInfo (b : Rat) : MockSym :=
  { bid := b, ask := b + 3/10000, volume_min := 1/100, volume_max := 100,
    volume_step := 1/100 }

/-- The order-request dict built by `execute_trade` / `close_position`
(constant entries `action`, `magic`, `type_time`, `type_filling` are
determined by `comment` and elided). -/
structure OrderRequest where
  symbol : PyVal
  volume : PyVal
  otype : Int
  price : PyVal
  slippage : Option Int
  position : Option Int
  sl : Option PyVal
  tp : Option PyVal
  comment : String
deriving Repr, DecidableEq

/-- `MockMT5Result`: retcode, order ticket, comment. -/
structure OrderResult where
  retcode : Int
  order : Int
  comment : String
deriving Repr, DecidableEq

/-- The fields of `MockPosition` read by `close_position`. -/
structure MockPosition where
  ticket : Int
  ptype : Int
  volume : Rat
deriving Repr, DecidableEq

/-- The mocked MT5 terminal boundary: quote data, order responses and
open positions.  `mockWorld` below fixes it to the literal mock. -/
structure World where
  symbolInfo : PyVal → MockSym
  orderRet : OrderRequest → OrderResult
  positions : PyVal → List MockPosition
  now : Nat
  todayStart : Nat
  freshKey : String

/-- The literal mock terminal of `mt5_trader.py` with its randomness
fixed: every symbol quotes at bid `b`, `order_send` always succeeds with
ticket `tk` (`MockMT5Result()` has `retcode = TRADE_RETCODE_DONE`), and
`positions_get` returns the empty list. -/
def mockWorld (b : Rat) (tk : Int) (now todayStart : Nat) (key : String) : World :=
  { symbolInfo := fun _ => mockSymbolInfo b
    orderRet := fun _ => { retcode := TRADE_RETCODE_DONE, order := tk, comment := "Success" }
    positions := fun _ => []
    now := now, todayStart := todayStart, freshKey := key }

/-- The mutable state of an `MT5Trader` instance (the cached
`account_info` object is only echoed back by read-only queries and is
not modelled). -/
structure TraderState where
  is_connected : Bool
  current_login : PyVal
  current_server : PyVal
deriving Repr, DecidableEq

/-- `MT5Trader.__init__`. -/
def TraderState.init : TraderState :=
  { is_connected := false, current_login := .none, current_server := .none }

/-- `MT5Trader.connect`.  In the mocked terminal `initialize` and `login`
always succeed, so the call succeeds unless all credentials are present
and `int(login)` raises `ValueError` (which the source catches and turns
into `False`). -/
def MT5Trader.connect (st : TraderState) (server : String) (login password : PyVal) :
    TraderState × Bool :=
  if server = "" || !pyTruthy login || !pyTruthy password then
    ({ is_connected := true, current_login := .str "demo",
       current_server := .str "demo-server" }, true)
  else
    match pyInt login with
    | .error _ => (st, false)
    | .ok _ =>
      ({ is_connected := true, current_login := login, current_server := .str server }, true)

/-- `MT5Trader.disconnect`. -/
def MT5Trader.disconnect (st : TraderState) : TraderState :=
  if st.is_connected then { st with is_connected := false } else st

/-- Result of `MT5Trader.execute_trade`, together with the request
actually handed to `order_send` (if the call got that far). -/
structure TradeCallResult where
  ok : Bool
  ticket : Option Int
  msg : String
  sent : Option OrderRequest
deriving Repr, DecidableEq

/-- Stand-in text for the `TypeError` raised when a non-numeric volume
is compared against `volume_min`. -/
def volumeCmpExn : PyExn :=
  .typeError "comparison not supported between volume and float"

/-- `MT5Trader.execute_trade`.  Mirrors the source order of operations:
connection gate, symbol info (total in the mock), order-type dispatch on
`action.upper()`, volume clamping to `[volume_min, volume_max]`, rounding
to `volume_step`, request construction (`sl`/`tp` only when truthy) and
the retcode check on the `order_send` result.  Dynamic-type errors are
caught by the function's own `try`/`except`. -/
def MT5Trader.execute_trade (st : TraderState) (w : World)
    (symbol action volume price stop_loss take_profit : PyVal) (slippage : Int) :
    TradeCallResult :=
  if !st.is_connected then
    ⟨false, Option.none, "Not connected to MT5", Option.none⟩
  else
    let info := w.symbolInfo symbol
    match pyUpper action with
    | .error e => ⟨false, Option.none, "Trade execution error: " ++ e.text, Option.none⟩
    | .ok act =>
      if act = "BUY" || act = "SELL" then
        let otype : Int := if act = "BUY" then ORDER_TYPE_BUY else ORDER_TYPE_SELL
        let eprice : PyVal :=
          if price = .none then .num (if act = "BUY" then info.ask else info.bid) else price
        match volume with
        | .num v =>
          let v1 := if v < info.volume_min then info.volume_min
                    else if info.volume_max < v then info.volume_max
                    else v
          let v2 := (pyRound (v1 / info.volume_step) : Rat) * info.volume_step
          let req : OrderRequest :=
            { symbol := symbol, volume := .num v2, otype := otype, price := eprice,
              slippage := some slippage, position := Option.none,
              sl := if pyTruthy stop_loss then some stop_loss else Option.none,
              tp := if pyTruthy take_profit then some take_profit else Option.none,
              comment := "TradingView Webhook" }
          let res := w.orderRet req
          let out : Bool × Option Int × String :=
            if res.retcode ≠ TRADE_RETCODE_DONE then
              (false, Option.none, "Trade failed: " ++ toString res.retcode ++ " - " ++
                res.comment)
            else (true, some res.order, "Trade executed successfully")
          ⟨out.1, out.2.1, out.2.2, some req⟩
        | _ => ⟨false, Option.none, "Trade execution error: " ++ volumeCmpExn.text, Option.none⟩
      else
        ⟨false, Option.none, "Invalid action: " ++ pyStr action, Option.none⟩

/-- The per-position loop body of `close_position`, accumulating the
success count and error messages in source order. -/
def closeLoop (w : World) (symbol volumeArg : PyVal) :
    List MockPosition → Nat × List String
  | [] => (0, [])
  | p :: ps =>
    let closeType : Int := if p.ptype = ORDER_TYPE_BUY then ORDER_TYPE_SELL else ORDER_TYPE_BUY
    let closePrice : Rat :=
      if p.ptype = ORDER_TYPE_BUY then (w.symbolInfo symbol).bid else (w.symbolInfo symbol).ask
    let closeVolume : PyVal := if pyTruthy volumeArg then volumeArg else .num p.volume
    let req : OrderRequest :=
      { symbol := symbol, volume := closeVolume, otype := closeType, price := .num closePrice,
        slippage := Option.none, position := some p.ticket, sl := Option.none, tp := Option.none,
        comment := "TradingView Close" }
    let res := w.orderRet req
    let (n, errs) := closeLoop w symbol volumeArg ps
    if res.retcode = TRADE_RETCODE_DONE then (n + 1, errs)
    else (n, ("Failed to close position " ++ toString p.ticket ++ ": " ++ res.comment) :: errs)

/-- `MT5Trader.close_position`: empty position list fails with
`"No open positions for <symbol>"`; otherwise an opposing order per
position, overall success iff at least one closed. -/
def MT5Trader.close_position (st : TraderState) (w : World) (symbol volumeArg : PyVal) :
    Bool × String :=
  if !st.is_connected then (false, "Not connected to MT5")
  else
    match w.positions symbol with
    | [] => (false, "No open positions for " ++ pyStr symbol)
    | ps =>
      let (n, errs) := closeLoop w symbol volumeArg ps
      if 0 < n then (true, "Closed " ++ toString n ++ " positions")
      else (false, String.intercalate "; " errs)

/-- `models.TradingConfig` (single-account mode configuration row). -/
structure TradingConfig where
  mt5_server_ip : String
  mt5_server_port : Int
  mt5_login : String
  mt5_password : String
  default_lot_size : Rat
  max_daily_trades : Nat
  max_risk_per_trade : Rat
  slippage : Int
  is_active : Bool
  api_key : String
deriving Repr, DecidableEq

/-- `models.SymbolConfig`. -/
structure SymbolConfig where
  symbol : String
  lot_size : Rat
  max_position_size : Rat
  is_enabled : Bool
deriving Repr, DecidableEq

/-- `models.TradingAccount`.  Fields written from webhook/account payloads
keep their dynamic (`PyVal`) type; `webhook_key` is always a string in
both creation paths. -/
structure TradingAccount where
  id : Nat
  account_name : PyVal
  mt5_server_ip : PyVal
  mt5_server_port : PyVal
  mt5_login : PyVal
  mt5_password : PyVal
  broker_type : PyVal
  webhook_key : String
  default_lot_size : PyVal
  max_daily_trades : PyVal
  max_risk_per_trade : PyVal
  slippage : PyVal
  is_active : Bool
  is_connected : Bool
  last_connected : Option Nat
  total_trades : Nat
  successful_trades : Nat
  failed_trades : Nat
deriving Repr, DecidableEq

/-- `models.WebhookAlert` (`raw_data` keeps the original payload). -/
structure WebhookAlert where
  id : Nat
  account_id : Option Nat
  symbol : PyVal
  action : PyVal
  price : PyVal
  volume : PyVal
  stop_loss : PyVal
  take_profit : PyVal
  raw_data : List (String × PyVal)
  status : String
  error_message : Option String
  received_at : Nat
  processed_at : Option Nat
deriving Repr, DecidableEq

/-- `models.TradeExecution` (profit/commission/swap/current price and
close timestamps are never written by the pipeline and elided). -/
structure TradeExecution where
  id : Nat
  webhook_alert_id : Option Nat
  mt5_ticket : Option Int
  symbol : PyVal
  action : PyVal
  volume : PyVal
  open_price : PyVal
  stop_loss : PyVal
  take_profit : PyVal
  status : String
  error_message : Option String
  executed_at : Nat
deriving Repr, DecidableEq

/-- The relational store: the four tables plus autoincrement counters. -/
structure DBState where
  accounts : List TradingAccount
  alerts : List WebhookAlert
  executions : List TradeExecution
  config : Option TradingConfig
  symbolConfigs : List SymbolConfig
  nextAccountId : Nat
  nextAlertId : Nat
  nextExecId : Nat
deriving Repr, DecidableEq

/-- The SQLAlchemy session: committed snapshot, working copy, and the
environment's schedule of commit outcomes (`[]` = every commit
succeeds). -/
structure Sess where
  committed : DBState
  working : DBState
  commits : List Bool
deriving Repr, DecidableEq

/-- A session over `st` with no pending changes and all commits
succeeding. -/
def Sess.clean (st : DBState) : Sess := ⟨st, st, []⟩

/-- `db.session.commit()`: publish the working copy, or fail (consuming
one schedule entry); a failed commit rolls the session back and raises. -/
def Sess.commit : Sess → Sess × Bool
  | ⟨_, wrk, []⟩ => (⟨wrk, wrk, []⟩, true)
  | ⟨c, wrk, b :: rest⟩ => if b then (⟨wrk, wrk, rest⟩, true) else (⟨c, c, rest⟩, false)

/-- `db.session.rollback()`. -/
def Sess.rollback (s : Sess) : Sess := { s with working := s.committed }

/-- Apply an uncommitted mutation (ORM attribute assignment or
`db.session.add`). -/
def Sess.upd (s : Sess) (f : DBState → DBState) : Sess := { s with working := f s.working }

/-- Terminal status / error-text selection used by every row update
(`'PROCESSED' if success else 'FAILED'` and friends). -/
def statusStr (ok : Bool) (sT sF : String) : String := if ok then sT else sF

/-- `message if not success else None`. -/
def errStr (ok : Bool) (msg : String) : Option String :=
  if ok then Option.none else some msg

/-- Stand-in for the message of a database error surfaced through
`str(e)` in the source's `except` blocks. -/
def dbExnText : String := "database commit failed"

/-- Update the account row with the given id. -/
def DBState.updAccount (st : DBState) (i : Nat) (f : TradingAccount → TradingAccount) :
    DBState :=
  { st with accounts := st.accounts.map (fun a => if a.id = i then f a else a) }

/-- Update the alert row with the given id. -/
def DBState.updAlert (st : DBState) (i : Nat) (f : WebhookAlert → WebhookAlert) : DBState :=
  { st with alerts := st.alerts.map (fun a => if a.id = i then f a else a) }

/-- `db.session.add(alert)`: append with a fresh id. -/
def DBState.addAlert (st : DBState) (a : Nat → WebhookAlert) : DBState × Nat :=
  ({ st with alerts := st.alerts ++ [a st.nextAlertId], nextAlertId := st.nextAlertId + 1 },
   st.nextAlertId)

/-- `db.session.add(execution)`: append with a fresh id. -/
def DBState.addExec (st : DBState) (e : Nat → TradeExecution) : DBState :=
  { st with executions := st.executions ++ [e st.nextExecId], nextExecId := st.nextExecId + 1 }

/-- `db.session.add(account)`: append with a fresh id. -/
def DBState.addAccount (st : DBState) (a : Nat → TradingAccount) : DBState × Nat :=
  ({ st with
      accounts := st.accounts ++ [a st.nextAccountId]
      nextAccountId := st.nextAccountId + 1 },
   st.nextAccountId)

/-- `TradingAccount.query.filter_by(id=i, is_active=True).first()`. -/
def DBState.activeById (st : DBState) (i : Nat) : Option TradingAccount :=
  st.accounts.find? (fun a => a.id = i && a.is_active)

/-- `TradingAccount.query.filter_by(webhook_key=k, is_active=True).first()`. -/
def DBState.activeByKey (st : DBState) (k : String) : Option TradingAccount :=
  st.accounts.find? (fun a => a.webhook_key = k && a.is_active)

/-- An `Option Rat` argument (single-account path) as the Python value
handed onward. -/
def optPy : Option Rat → PyVal
  | some q => .num q
  | Option.none => .none

/-- The canonical trade intent built by `parse_webhook_data` (the
`parsed_data` dict: raw `symbol`, upper-cased `action`, and the optional
numeric fields that coerced, including the raw `sl`/`tp` entries). -/
structure ParsedData where
  symbol : PyVal
  action : String
  price : Option Rat
  volume : Option Rat
  stop_loss : Option Rat
  take_profit : Option Rat
  sl : Option Rat
  tp : Option Rat
deriving Repr, DecidableEq

/-- One pass of the optional-field loop of `parse_webhook_data`: the
field is kept iff present, not `None`, and `float(...)` succeeds
(failures are logged and silently dropped). -/
def optField (d : Payload) (k : String) : Option Rat :=
  match Payload.get? d k with
  | some v => if v = .none then Option.none else pyFloat? v
  | Option.none => Option.none

/-- `WebhookHandler.parse_webhook_data`.  `.error msg` models
`(False, {}, msg)`, `.ok p` models `(True, parsed_data, "Success")`. -/
def parse_webhook_data (d : Payload) : Except String ParsedData :=
  match Payload.get? d "symbol" with
  | Option.none => .error "Missing required field: symbol"
  | some sv =>
    match Payload.get? d "action" with
    | Option.none => .error "Missing required field: action"
    | some av =>
      match pyUpper av with
      | .error e => .error ("Parsing error: " ++ e.text)
      | .ok act =>
        if act = "BUY" || act = "SELL" || act = "CLOSE" then
          let sl := optField d "sl"
          let tp := optField d "tp"
          let stop0 := optField d "stop_loss"
          let take0 := optField d "take_profit"
          .ok { symbol := sv, action := act
                price := optField d "price", volume := optField d "volume"
                stop_loss := match stop0 with | some q => some q | Option.none => sl
                take_profit := match take0 with | some q => some q | Option.none => tp
                sl := sl, tp := tp }
        else .error ("Invalid action: " ++ pyStr av)

/-- `WebhookHandler.validate_api_key`. -/
def validate_api_key (st : DBState) (key : String) : Bool :=
  match st.config with
  | some cfg => cfg.api_key = key
  | Option.none => false

/-- `WebhookHandler.check_risk_limits`: daily count of execution rows
since local midnight, then the symbol policy gates. -/
def check_risk_limits (st : DBState) (w : World) (symbol : PyVal) (volume : Rat) :
    Bool × String :=
  match st.config with
  | Option.none => (false, "No trading configuration found")
  | some cfg =>
    let daily := (st.executions.filter (fun e => w.todayStart ≤ e.executed_at)).length
    if cfg.max_daily_trades ≤ daily then
      (false, "Daily trade limit reached: " ++ toString daily ++ "/" ++
        toString cfg.max_daily_trades)
    else
      match st.symbolConfigs.find? (fun c => symbol = .str c.symbol) with
      | some sc =>
        if !sc.is_enabled then (false, "Trading disabled for symbol: " ++ pyStr symbol)
        else if sc.max_position_size < volume then
          (false, "Volume exceeds limit: " ++ toString volume ++ " > " ++
            toString sc.max_position_size)
        else (true, "Risk checks passed")
      | Option.none => (true, "Risk checks passed")

/-- `WebhookHandler._connect_mt5`: demo connect when credentials are
missing, otherwise connect to `ip:port`; no-op without an active
config. -/
def connectMT5 (tr : TraderState) (st : DBState) : TraderState :=
  match st.config with
  | some cfg =>
    if cfg.is_active then
      if cfg.mt5_login = "" || cfg.mt5_password = "" then
        (MT5Trader.connect tr "" (.str "") (.str "")).1
      else
        (MT5Trader.connect tr (cfg.mt5_server_ip ++ ":" ++ toString cfg.mt5_server_port)
          (.str cfg.mt5_login) (.str cfg.mt5_password)).1
    else tr
  | Option.none => tr

/-- Result triple of the single-account pipeline:
`(success, message, ticket)`. -/
structure PipelineResult where
  success : Bool
  message : String
  ticket : Option Int
deriving Repr, DecidableEq

/-- `WebhookHandler._close_positions`: lazily connect, close, persist an
execution row (volume 0, action CLOSE), commit. -/
def handlerClosePositions (tr : TraderState) (s : Sess) (w : World)
    (alertId : Nat) (symbol : PyVal) : PipelineResult × TraderState × Sess :=
  let tr1 := if !tr.is_connected then connectMT5 tr s.working else tr
  if !tr1.is_connected then (⟨false, "MT5 not connected", Option.none⟩, tr1, s)
  else
    let cl := MT5Trader.close_position tr1 w symbol .none
    let r := (s.upd (fun st => st.addExec (fun i =>
      { id := i, webhook_alert_id := some alertId, mt5_ticket := Option.none,
        symbol := symbol, action := .str "CLOSE", volume := .num 0,
        open_price := .none, stop_loss := .none, take_profit := .none,
        status := statusStr cl.1 "FILLED" "FAILED",
        error_message := errStr cl.1 cl.2,
        executed_at := w.now }))).commit
    if r.2 then (⟨cl.1, cl.2, Option.none⟩, tr1, r.1)
    else (⟨false, "Position close error: " ++ dbExnText, Option.none⟩, tr1, r.1)

/-- `WebhookHandler._execute_trade`: CLOSE branch, config gate, volume
resolution (payload volume, else symbol-policy lot size, else account
default), risk check, lazy connect, broker call, execution row,
commit. -/
def handlerExecuteTrade (tr : TraderState) (s : Sess) (w : World)
    (alertId : Nat) (p : ParsedData) : PipelineResult × TraderState × Sess :=
  if p.action = "CLOSE" then handlerClosePositions tr s w alertId p.symbol
  else
    match s.working.config with
    | Option.none => (⟨false, "Trading configuration not active", Option.none⟩, tr, s)
    | some cfg =>
      if !cfg.is_active then (⟨false, "Trading configuration not active", Option.none⟩, tr, s)
      else
        let volume : Rat :=
          match p.volume with
          | some v => v
          | Option.none =>
            match s.working.symbolConfigs.find? (fun c => p.symbol = .str c.symbol) with
            | some sc => sc.lot_size
            | Option.none => cfg.default_lot_size
        let rk := check_risk_limits s.working w p.symbol volume
        if !rk.1 then (⟨false, rk.2, Option.none⟩, tr, s)
        else
          let tr1 := if !tr.is_connected then connectMT5 tr s.working else tr
          if !tr1.is_connected then (⟨false, "MT5 not connected", Option.none⟩, tr1, s)
          else
            let r := MT5Trader.execute_trade tr1 w p.symbol (.str p.action) (.num volume)
              (optPy p.price) (optPy p.stop_loss) (optPy p.take_profit) cfg.slippage
            let c := (s.upd (fun st => st.addExec (fun i =>
              { id := i, webhook_alert_id := some alertId, mt5_ticket := r.ticket,
                symbol := p.symbol, action := .str p.action, volume := .num volume,
                open_price := optPy p.price, stop_loss := optPy p.stop_loss,
                take_profit := optPy p.take_profit,
                status := statusStr r.ok "FILLED" "FAILED",
                error_message := errStr r.ok r.msg,
                executed_at := w.now }))).commit
            if c.2 then (⟨r.ok, r.msg, r.ticket⟩, tr1, c.1)
            else (⟨false, "Trade execution error: " ++ dbExnText, Option.none⟩, tr1, c.1)

/-- `WebhookHandler.process_webhook` (`process(payload, authToken)`):
API-key gate, parse, Alert row with status RECEIVED, trade step, Alert
terminal-status update.  A failed commit raises into the function's
outer `except`, which returns the error triple without rolling back. -/
def process_webhook (tr : TraderState) (s : Sess) (w : World)
    (data : Payload) (api_key : String) : PipelineResult × TraderState × Sess :=
  if !validate_api_key s.working api_key then
    (⟨false, "Invalid API key", Option.none⟩, tr, s)
  else
    match parse_webhook_data data with
    | .error msg => (⟨false, msg, Option.none⟩, tr, s)
    | .ok p =>
      let ad := s.working.addAlert (fun i =>
        { id := i, account_id := Option.none, symbol := p.symbol, action := .str p.action,
          price := optPy p.price, volume := optPy p.volume, stop_loss := optPy p.stop_loss,
          take_profit := optPy p.take_profit, raw_data := data, status := "RECEIVED",
          error_message := Option.none, received_at := w.now, processed_at := Option.none })
      let c1 := ({ s with working := ad.1 } : Sess).commit
      if !c1.2 then
        (⟨false, "Webhook processing error: " ++ dbExnText, Option.none⟩, tr, c1.1)
      else
        let h := handlerExecuteTrade tr c1.1 w ad.2 p
        let c2 := ((h.2.2).upd (fun st => st.updAlert ad.2 (fun a =>
          { a with status := statusStr h.1.success "PROCESSED" "FAILED",
                   error_message := errStr h.1.success h.1.message,
                   processed_at := some w.now }))).commit
        if c2.2 then (h.1, h.2.1, c2.1)
        else (⟨false, "Webhook processing error: " ++ dbExnText, Option.none⟩, h.2.1, c2.1)

/-- `MultiAccountManager.active_connections`: `account_id → MT5Trader`. -/
def MgrState := List (Nat × TraderState)

instance : DecidableEq MgrState := by
  unfold MgrState
  exact inferInstance

/-- Dict membership / item access on the connection cache. -/
def MgrState.lookup (m : MgrState) (i : Nat) : Option TraderState :=
  (List.find? (fun kv => kv.1 = i) m).map (·.2)

/-- `self.active_connections[account_id] = trader`. -/
def MgrState.insert (m : MgrState) (i : Nat) (tr : TraderState) : MgrState :=
  (List.filter (fun kv => kv.1 ≠ i) m) ++ [(i, tr)]

/-- `del self.active_connections[account_id]`. -/
def MgrState.erase (m : MgrState) (i : Nat) : MgrState :=
  List.filter (fun kv => kv.1 ≠ i) m

/-- `MultiAccountManager.create_account`: unique webhook key (from the
environment), row with payload fields / model defaults, commit.  A
missing required key raises `KeyError` into the `except`, which rolls
back and fails. -/
def create_account (s : Sess) (w : World) (d : Payload) : (Bool × String × Option Nat) × Sess :=
  match Payload.get? d "account_name", Payload.get? d "server_ip",
      Payload.get? d "login", Payload.get? d "password" with
  | some nm, some ip, some lg, some pw =>
    let ad := s.working.addAccount (fun i =>
      { id := i, account_name := nm, mt5_server_ip := ip,
        mt5_server_port := Payload.getD d "server_port" (.num 443),
        mt5_login := lg, mt5_password := pw,
        broker_type := Payload.getD d "broker_type" (.str "MT5"),
        webhook_key := w.freshKey,
        default_lot_size := Payload.getD d "lot_size" (.num (1/100)),
        max_daily_trades := Payload.getD d "max_trades" (.num 10),
        max_risk_per_trade := Payload.getD d "max_risk" (.num 2),
        slippage := Payload.getD d "slippage" (.num 3),
        is_active := true, is_connected := false, last_connected := Option.none,
        total_trades := 0, successful_trades := 0, failed_trades := 0 })
    let c := ({ s with working := ad.1 } : Sess).commit
    if c.2 then
      ((true, "Account created with webhook key: " ++ w.freshKey, some ad.2), c.1)
    else
      ((false, "Failed to create account: " ++ dbExnText, Option.none), c.1.rollback)
  | _, _, _, _ =>
    ((false, "Failed to create account: missing required account field", Option.none),
     s.rollback)

/-- `MultiAccountManager.test_account_connection`: fresh trader, connect
with the account's credentials against `ip:port`, record the connection
flag, cache the live trader on success. -/
def test_account_connection (mgr : MgrState) (s : Sess) (w : World) (i : Nat) :
    (Bool × String) × MgrState × Sess :=
  match s.working.activeById i with
  | Option.none => ((false, "Account not found"), mgr, s)
  | some acc =>
    let cn := MT5Trader.connect TraderState.init
      (pyStr acc.mt5_server_ip ++ ":" ++ pyStr acc.mt5_server_port)
      acc.mt5_login acc.mt5_password
    if cn.2 then
      let r := (s.upd (fun st => st.updAccount i (fun a =>
        { a with is_connected := true, last_connected := some w.now }))).commit
      if r.2 then ((true, "Connection successful"), mgr.insert i cn.1, r.1)
      else ((false, "Connection test failed: " ++ dbExnText), mgr, r.1)
    else
      let r := (s.upd (fun st => st.updAccount i (fun a =>
        { a with is_connected := false }))).commit
      if r.2 then ((false, "Failed to connect to MT5"), mgr, r.1)
      else ((false, "Connection test failed: " ++ dbExnText), mgr, r.1)

/-- Increment the account trade counters as the source does (`total`
plus exactly one of `successful`/`failed`). -/
def bumpCounters (ok : Bool) (a : TradingAccount) : TradingAccount :=
  if ok then
    { a with total_trades := a.total_trades + 1,
             successful_trades := a.successful_trades + 1 }
  else
    { a with total_trades := a.total_trades + 1, failed_trades := a.failed_trades + 1 }

/-- `MultiAccountManager.execute_trade_for_account`: account lookup,
lazy connect through `test_account_connection`, raw-payload trade
dispatch (`CLOSE` vs `execute_trade` with default slippage 3), counter
update, commit.  All exceptions (dynamic-type errors from a truthy
non-string action, a missing cache entry, a failed commit) are caught by
the function's own `except` and become `"Trade execution failed: ..."`. -/
def execute_trade_for_account (mgr : MgrState) (s : Sess) (w : World) (i : Nat)
    (d : Payload) : (Bool × Option String × String) × MgrState × Sess :=
  match s.working.activeById i with
  | Option.none => ((false, Option.none, "Account not found"), mgr, s)
  | some acc =>
    let step : Except (((Bool × Option String × String)) × MgrState × Sess)
        (MgrState × Sess) :=
      match mgr.lookup i with
      | some _ => .ok (mgr, s)
      | Option.none =>
        let t := test_account_connection mgr s w i
        if t.1.1 then .ok (t.2.1, t.2.2)
        else .error ((false, Option.none, "Failed to connect: " ++ t.1.2), t.2.1, t.2.2)
    match step with
    | .error r => r
    | .ok (mgr1, s1) =>
      match mgr1.lookup i with
      | Option.none =>
        ((false, Option.none,
          "Trade execution failed: KeyError " ++ toString i), mgr1, s1)
      | some trader =>
        let symbol := Payload.getN d "symbol"
        let action := Payload.getN d "action"
        let volume := Payload.getD d "volume" acc.default_lot_size
        let price := Payload.getN d "price"
        let stop_loss := pyOr (Payload.getN d "stop_loss") (Payload.getN d "sl")
        let take_profit := pyOr (Payload.getN d "take_profit") (Payload.getN d "tp")
        let branch : Except PyExn (Bool × Option Int × String) :=
          if pyTruthy action then
            match pyUpper action with
            | .error e => .error e
            | .ok act =>
              if act = "CLOSE" then
                let cl := MT5Trader.close_position trader w symbol .none
                .ok (cl.1, Option.none, cl.2)
              else
                let r := MT5Trader.execute_trade trader w symbol action volume price
                  stop_loss take_profit 3
                .ok (r.ok, r.ticket, r.msg)
          else
            let r := MT5Trader.execute_trade trader w symbol action volume price
              stop_loss take_profit 3
            .ok (r.ok, r.ticket, r.msg)
        match branch with
        | .error e => ((false, Option.none, "Trade execution failed: " ++ e.text), mgr1, s1)
        | .ok b =>
          let c := (s1.upd (fun st => st.updAccount i (bumpCounters b.1))).commit
          if c.2 then
            let ticketStr : Option String :=
              match b.2.1 with
              | some t => if t ≠ 0 then some (toString t) else Option.none
              | Option.none => Option.none
            ((b.1, ticketStr, b.2.2), mgr1, c.1)
          else
            ((false, Option.none, "Trade execution failed: " ++ dbExnText), mgr1, c.1)

/-- Python truthiness of the optional ticket string
(`if success and ticket:`): truthy iff present and non-empty. -/
def ticketTruthy (o : Option String) : Bool := !(o.getD "" = "")

/-- `MultiAccountManager.process_webhook_for_account`
(`process_for_account(routingKey, payload)`): routing-key lookup
(unknown key fails before anything is written), Alert row with raw
payload fields and status RECEIVED, trade via
`execute_trade_for_account`, Alert status update, and an Execution row
only when the trade succeeded with a ticket; one final commit.  Any
exception rolls back and fails. -/
def process_webhook_for_account (mgr : MgrState) (s : Sess) (w : World) (key : String)
    (d : Payload) : (Bool × Option String × String) × MgrState × Sess :=
  match s.working.activeByKey key with
  | Option.none => ((false, Option.none, "Invalid webhook key: " ++ key), mgr, s)
  | some acc =>
    let ad := s.working.addAlert (fun i =>
      { id := i, account_id := some acc.id,
        symbol := Payload.getD d "symbol" (.str ""),
        action := Payload.getD d "action" (.str ""),
        price := Payload.getN d "price", volume := Payload.getN d "volume",
        stop_loss := pyOr (Payload.getN d "stop_loss") (Payload.getN d "sl"),
        take_profit := pyOr (Payload.getN d "take_profit") (Payload.getN d "tp"),
        raw_data := d, status := "RECEIVED", error_message := Option.none,
        received_at := w.now, processed_at := Option.none })
    let c1 := ({ s with working := ad.1 } : Sess).commit
    if !c1.2 then
      ((false, Option.none, "Webhook processing failed: " ++ dbExnText), mgr,
       c1.1.rollback)
    else
      let et := execute_trade_for_account mgr c1.1 w acc.id d
      let s3 := (et.2.2).upd (fun st => st.updAlert ad.2 (fun a =>
        { a with status := statusStr et.1.1 "PROCESSED" "FAILED",
                 error_message := errStr et.1.1 et.1.2.2,
                 processed_at := some w.now }))
      if et.1.1 && ticketTruthy et.1.2.1 then
        match pyInt (.str ((et.1.2.1).getD "")) with
        | .error e =>
          ((false, Option.none, "Webhook processing failed: " ++ e.text), et.2.1,
           s3.rollback)
        | .ok tk =>
          let c2 := (s3.upd (fun st => st.addExec (fun i =>
            { id := i, webhook_alert_id := some ad.2, mt5_ticket := some tk,
              symbol := Payload.getD d "symbol" (.str ""),
              action := Payload.getD d "action" (.str ""),
              volume := Payload.getD d "volume" acc.default_lot_size,
              open_price := Payload.getN d "price",
              stop_loss := pyOr (Payload.getN d "stop_loss") (Payload.getN d "sl"),
              take_profit := pyOr (Payload.getN d "take_profit") (Payload.getN d "tp"),
              status := "FILLED", error_message := Option.none,
              executed_at := w.now }))).commit
          if c2.2 then (et.1, et.2.1, c2.1)
          else
            ((false, Option.none, "Webhook processing failed: " ++ dbExnText), et.2.1,
             c2.1.rollback)
      else
        let c2 := s3.commit
        if c2.2 then (et.1, et.2.1, c2.1)
        else
          ((false, Option.none, "Webhook processing failed: " ++ dbExnText), et.2.1,
           c2.1.rollback)

/-- `MultiAccountManager.delete_account`: teardown of the cached live
connection, then soft delete (`is_active = False`) and commit. -/
def manager_delete_account (mgr : MgrState) (s : Sess) (i : Nat) :
    (Bool × String) × MgrState × Sess :=
  match s.working.activeById i with
  | Option.none => ((false, "Account not found"), mgr, s)
  | some _ =>
    let mgr1 := mgr.erase i
    let c := (s.upd (fun st =>
      st.updAccount i (fun a => { a with is_active := false }))).commit
    if c.2 then ((true, "Account deleted successfully"), mgr1, c.1)
    else
      ((false, "Failed to delete account: " ++ dbExnText), mgr1, c.1.rollback)

/-- `routes.webhook_multi_account` (`POST /webhook/<webhook_key>`):
missing JSON body is 400; otherwise the manager result is mapped to
HTTP 200 on success and 400 on any processing failure (including an
unknown routing key). -/
def webhook_multi_account (mgr : MgrState) (s : Sess) (w : World) (key : String)
    (body : Option Payload) : Nat × MgrState × Sess :=
  match body with
  | Option.none => (400, mgr, s)
  | some d =>
    let ((ok, _, _), mgr1, s1) := process_webhook_for_account mgr s w key d
    (if ok then 200 else 400, mgr1, s1)

/-- `routes.delete_account` (`POST /accounts/<account_id>/delete`):
`get_or_404` on the raw id (active or not), then `db.session.delete` —
a hard delete of the row — and commit. -/
def route_delete_account (s : Sess) (i : Nat) : Sess :=
  match s.working.accounts.find? (fun a => a.id = i) with
  | Option.none => s
  | some _ =>
    let s1 := s.upd (fun st =>
      { st with accounts := st.accounts.filter (fun a => a.id ≠ i) })
    (s1.commit).1

/-- `AdvancedRiskManager.allowed_symbols`. -/
def nlbAllowedSymbols : List String := ["EURUSD", "GBPUSD", "USDJPY", "AUDUSD"]

/-- `AdvancedRiskManager.max_daily_volume`. -/
def nlbMaxDailyVolume : Rat := 10

/-- `AdvancedRiskManager.max_position_size`. -/
def nlbMaxPositionSize : Rat := 2

/-- `AdvancedRiskManager.check_risk_limits` (`nlb_enhancements.py`):
symbol whitelist, daily-volume ceiling and position-size check run
first, in that order; the `CLOSE` special case is only reached after
all of them pass.  The function has no `try`/`except`, so dynamic-type
errors (non-string symbol/action, non-numeric volume or daily total)
propagate to the caller. -/
def nlb_check_risk_limits (trade_data daily_stats : Payload) :
    Except PyExn (Bool × String) :=
  match pyUpper (Payload.getD trade_data "symbol" (.str "")) with
  | .error e => .error e
  | .ok symbol =>
    match pyFloat (Payload.getD trade_data "volume" (.num (1/100))) with
    | .error e => .error e
    | .ok volume =>
      match pyUpper (Payload.getD trade_data "action" (.str "")) with
      | .error e => .error e
      | .ok action =>
        if !(nlbAllowedSymbols.contains symbol) then
          .ok (false, "Symbol " ++ symbol ++
            " not in allowed list: EURUSD, GBPUSD, USDJPY, AUDUSD")
        else
          match Payload.getD daily_stats "total_volume" (.num 0) with
          | .num dv =>
            if nlbMaxDailyVolume < dv + volume then
              .ok (false, "Daily volume limit exceeded: " ++ toString (dv + volume) ++
                " > " ++ toString nlbMaxDailyVolume)
            else if nlbMaxPositionSize < volume then
              .ok (false, "Position size too large: " ++ toString volume ++ " > " ++
                toString nlbMaxPositionSize)
            else if action = "CLOSE" then .ok (true, "Close action approved")
            else .ok (true, "Risk checks passed")
          | _ => .error (.typeError "unsupported operand types for addition")

example : pyFloat (.str "0.005") = .ok (1/200) := by
  simp [pyFloat, strToRat?, show "0.005".toList = ['0', '.', '0', '0', '5'] from rfl,
    unsignedRat?, takeDigits, natOfDigits, digitVal?]
  norm_num
example : pyInt (.str "12345") = .ok 12345 := by decide
example : pyTruthy (.num 0) = false := by decide

/-! ### Concrete fixtures used by witnesses and counterexamples -/

/-- A single-account configuration row with the model defaults
(`models.TradingConfig`), demo credentials and the default API key. -/
def cfg0 : TradingConfig :=
  { mt5_server_ip := "", mt5_server_port := 443, mt5_login := "", mt5_password := "",
    default_lot_size := 1/100, max_daily_trades := 10, max_risk_per_trade := 2,
    slippage := 3, is_active := true, api_key := "webhook-api-key" }

/-- A freshly created multi-account row with routing key `"abc-key"` and
the creation-time defaults (all counters zero). -/
def accEUR : TradingAccount :=
  { id := 1, account_name := .str "Main", mt5_server_ip := .str "10.0.0.1",
    mt5_server_port := .str "443", mt5_login := .str "12345678",
    mt5_password := .str "secret", broker_type := .str "MT5", webhook_key := "abc-key",
    default_lot_size := .num (1/100), max_daily_trades := .num 10,
    max_risk_per_trade := .num 2, slippage := .num 3, is_active := true,
    is_connected := false, last_connected := Option.none,
    total_trades := 0, successful_trades := 0, failed_trades := 0 }

/-- A database with the config row and one active account, no alerts or
executions yet. -/
def db0 : DBState :=
  { accounts := [accEUR], alerts := [], executions := [], config := some cfg0,
    symbolConfigs := [], nextAccountId := 2, nextAlertId := 1, nextExecId := 1 }

/-- The mock terminal with bid 1.1, all orders filled with ticket
123456, and no open positions. -/
def w0 : World := mockWorld (11/10) 123456 100 50 "fresh-key"

/-- `{"symbol": "EURUSD", "action": "BUY", "volume": 0.1}`. -/
def pBuy : Payload :=
  [("symbol", .str "EURUSD"), ("action", .str "BUY"), ("volume", .num (1/10))]

/-- `{"symbol": "EURUSD", "action": "CLOSE"}`. -/
def pClose : Payload := [("symbol", .str "EURUSD"), ("action", .str "CLOSE")]

/-! ### C4: CLOSE handling in the enhanced risk evaluator -/

/-- C4 (counterexample): the claim says every CLOSE is permitted for all
symbols/volumes/statistics, but a CLOSE on a symbol outside the
allow-list is denied by `AdvancedRiskManager.check_risk_limits`. -/
theorem c4_close_not_always_allowed :
    nlb_check_risk_limits
      [("symbol", .str "XAUUSD"), ("action", .str "CLOSE"), ("volume", .num (1/100))]
      [("total_volume", .num 0)]
      = .ok (false, "Symbol XAUUSD not in allowed list: EURUSD, GBPUSD, USDJPY, AUDUSD") := by
  simp [nlb_check_risk_limits, Payload.getD, Payload.get?, pyUpper, pyFloat, strUpper,
    nlbAllowedSymbols, nlbMaxDailyVolume, nlbMaxPositionSize]

/-- C4 (amended): in `AdvancedRiskManager.check_risk_limits` a CLOSE
request is evaluated by the symbol allow-list, daily-volume ceiling and
position-size checks first (in that order) and is permitted exactly when
all three pass — the CLOSE special case does not bypass them. -/
theorem c4_close_gated (td ds : Payload) (sym act : String) (v dv : Rat)
    (hs : Payload.getD td "symbol" (.str "") = .str sym)
    (ha : Payload.getD td "action" (.str "") = .str act)
    (hacu : strUpper act = "CLOSE")
    (hv : Payload.getD td "volume" (.num (1/100)) = .num v)
    (hd : Payload.getD ds "total_volume" (.num 0) = .num dv) :
    nlb_check_risk_limits td ds =
      (if !(nlbAllowedSymbols.contains (strUpper sym)) then
        .ok (false, "Symbol " ++ strUpper sym ++
          " not in allowed list: EURUSD, GBPUSD, USDJPY, AUDUSD")
      else if nlbMaxDailyVolume < dv + v then
        .ok (false, "Daily volume limit exceeded: " ++ toString (dv + v) ++ " > " ++
          toString nlbMaxDailyVolume)
      else if nlbMaxPositionSize < v then
        .ok (false, "Position size too large: " ++ toString v ++ " > " ++
          toString nlbMaxPositionSize)
      else .ok (true, "Close action approved")) := by
  unfold nlb_check_risk_limits
  rw [hs, ha, hv, hd]
  simp [pyUpper, pyFloat, hacu]

/-- C4 (witness for the amended theorem): a CLOSE on an allow-listed
symbol within both volume ceilings is approved. -/
theorem c4_close_gated_witness :
    nlb_check_risk_limits
      [("symbol", .str "EURUSD"), ("action", .str "CLOSE"), ("volume", .num 1)] []
      = .ok (true, "Close action approved") := by
  have h := c4_close_gated
    [("symbol", .str "EURUSD"), ("action", .str "CLOSE"), ("volume", .num 1)] []
    "EURUSD" "CLOSE" 1 0
    (by simp [Payload.getD, Payload.get?]) (by simp [Payload.getD, Payload.get?])
    (by decide) (by simp [Payload.getD, Payload.get?]) (by simp [Payload.getD, Payload.get?])
  rw [h]
  norm_num [nlbAllowedSymbols, nlbMaxDailyVolume, nlbMaxPositionSize,
    show strUpper "EURUSD" = "EURUSD" from by decide]

/-! ### C9: `sl`/`tp` aliases in the webhook parser -/

/-- C9 (confirmed): in every successful parse, the canonical
`stop_loss`/`take_profit` value wins whenever it parsed, and the
`sl`/`tp` alias value is used exactly when the canonical key is absent
from the parsed intent. -/
theorem c9_alias_resolution (d : Payload) (p : ParsedData)
    (h : parse_webhook_data d = .ok p) :
    (∀ q, optField d "stop_loss" = some q → p.stop_loss = some q) ∧
    (optField d "stop_loss" = Option.none → p.stop_loss = optField d "sl") ∧
    (∀ q, optField d "take_profit" = some q → p.take_profit = some q) ∧
    (optField d "take_profit" = Option.none → p.take_profit = optField d "tp") := by
  have hfields : p.stop_loss = (match optField d "stop_loss" with
        | some q => some q
        | Option.none => optField d "sl") ∧
      p.take_profit = (match optField d "take_profit" with
        | some q => some q
        | Option.none => optField d "tp") := by
    unfold parse_webhook_data at h
    split at h
    · simp at h
    split at h
    · simp at h
    split at h
    · simp at h
    split at h
    · simp only [Except.ok.injEq] at h
      rw [← h]
      exact ⟨rfl, rfl⟩
    · simp at h
  refine ⟨fun q hq => ?_, fun hq => ?_, fun q hq => ?_, fun hq => ?_⟩
  · rw [hfields.1, hq]
  · rw [hfields.1, hq]
  · rw [hfields.2, hq]
  · rw [hfields.2, hq]

/-- A payload carrying `stop_loss`, its alias `sl` with a different
value, and only the alias `tp`. -/
def dAlias : Payload :=
  [("symbol", .str "EURUSD"), ("action", .str "BUY"),
   ("stop_loss", .num 1), ("sl", .num 2), ("tp", .num 3)]

/-- The intent `parse_webhook_data` produces for `dAlias`. -/
def pAlias : ParsedData :=
  { symbol := .str "EURUSD", action := "BUY", price := Option.none,
    volume := Option.none, stop_loss := some 1, take_profit := some 3,
    sl := some 2, tp := some 3 }

/-- C9 (witness): on `dAlias` the canonical `stop_loss` value 1 beats
the alias value 2, and the `tp` alias fills the absent `take_profit`. -/
theorem c9_alias_resolution_witness :
    pAlias.stop_loss = some 1 ∧ pAlias.take_profit = optField dAlias "tp" := by
  have hp : parse_webhook_data dAlias = .ok pAlias := by
    simp [parse_webhook_data, dAlias, pAlias, Payload.get?, pyUpper, optField,
      pyFloat?, pyFloat, strUpper, Except.toOption]
  have h := c9_alias_resolution dAlias pAlias hp
  exact ⟨h.1 1 (by simp [dAlias, optField, Payload.get?, pyFloat?, pyFloat, Except.toOption]),
    h.2.2.2 (by simp [dAlias, optField, Payload.get?, pyFloat?, pyFloat, Except.toOption])⟩

/-! ### C10: zero stop-loss/take-profit suppressed in the order request -/

/-- C10 (confirmed): whenever `MT5Trader.execute_trade` reaches order
submission, the request carries the `sl` (resp. `tp`) field iff the
corresponding argument is non-`None` and non-zero — an explicit 0.0
stop-loss or take-profit is indistinguishable from an absent one. -/
theorem c10_zero_sl_tp_dropped (tr : TraderState) (w : World) (symbol : PyVal)
    (act : String) (v : Rat) (price : PyVal) (o1 o2 : Option Rat) (slip : Int)
    (hc : tr.is_connected = true)
    (ha : strUpper act = "BUY" ∨ strUpper act = "SELL") :
    ∃ req, (MT5Trader.execute_trade tr w symbol (.str act) (.num v) price
        (optPy o1) (optPy o2) slip).sent = some req ∧
      (req.sl = some (optPy o1) ↔ ∃ q, o1 = some q ∧ q ≠ 0) ∧
      (req.sl = Option.none ↔ (o1 = Option.none ∨ o1 = some 0)) ∧
      (req.tp = some (optPy o2) ↔ ∃ q, o2 = some q ∧ q ≠ 0) ∧
      (req.tp = Option.none ↔ (o2 = Option.none ∨ o2 = some 0)) := by
  have hbs : (strUpper act = "BUY" || strUpper act = "SELL") = true := by
    rcases ha with h | h <;> simp [h]
  unfold MT5Trader.execute_trade
  rw [hc]
  simp only [Bool.not_true, Bool.false_eq_true, if_false, pyUpper, hbs, if_true]
  refine ⟨_, rfl, ?_, ?_, ?_, ?_⟩
  · rcases o1 with _ | q1
    · simp [optPy, pyTruthy]
    · by_cases h1 : q1 = 0 <;> simp [optPy, pyTruthy, h1]
  · rcases o1 with _ | q1
    · simp [optPy, pyTruthy]
    · by_cases h1 : q1 = 0 <;> simp [optPy, pyTruthy, h1]
  · rcases o2 with _ | q2
    · simp [optPy, pyTruthy]
    · by_cases h2 : q2 = 0 <;> simp [optPy, pyTruthy, h2]
  · rcases o2 with _ | q2
    · simp [optPy, pyTruthy]
    · by_cases h2 : q2 = 0 <;> simp [optPy, pyTruthy, h2]

/-- C10 (witness): with stop-loss 0.0 and take-profit 1.5 the submitted
request has no `sl` field and carries `tp = 1.5`. -/
theorem c10_zero_sl_tp_dropped_witness :
    ∃ req, (MT5Trader.execute_trade ⟨true, .str "demo", .str "demo-server"⟩ w0
        (.str "EURUSD") (.str "BUY") (.num (1/10)) .none
        (optPy (some 0)) (optPy (some (3/2))) 3).sent = some req ∧
      req.sl = Option.none ∧ req.tp = some (.num (3/2)) := by
  obtain ⟨req, hsent, _, hsln, htps, _⟩ :=
    c10_zero_sl_tp_dropped ⟨true, .str "demo", .str "demo-server"⟩ w0
      (.str "EURUSD") "BUY" (1/10) .none (some 0) (some (3/2)) 3 rfl
      (Or.inl (by decide))
  refine ⟨req, hsent, hsln.mpr (Or.inr rfl), ?_⟩
  have := htps.mpr ⟨3/2, rfl, by norm_num⟩
  simpa [optPy] using this

/-! ### C6: volume clamping and step rounding in `execute_trade` -/

/-- Banker's rounding lands within half a unit of its argument. -/
theorem pyRound_close (q : Rat) : |(pyRound q : Rat) - q| ≤ 1/2 := by
  have hle : ((⌊q⌋ : Int) : Rat) ≤ q := Int.floor_le q
  have hlt : q < ((⌊q⌋ : Int) : Rat) + 1 := Int.lt_floor_add_one q
  unfold pyRound
  split
  next h => rw [abs_le]; constructor <;> linarith
  next h =>
    split
    next h2 => rw [abs_le]; push_cast; constructor <;> linarith
    next h2 =>
      have heq : q - ((⌊q⌋ : Int) : Rat) = 1/2 :=
        le_antisymm (not_lt.mp h2) (not_lt.mp h)
      split
      next h3 => rw [abs_le]; constructor <;> linarith
      next h3 => rw [abs_le]; push_cast; constructor <;> linarith

/-- The clamping `if` chain of `execute_trade` is the interval clamp. -/
theorem clamp_ite_eq (v : Rat) :
    (if v < 1/100 then (1/100 : Rat) else if 100 < v then 100 else v) =
      max (1/100) (min v 100) := by
  rcases lt_or_le v (1/100) with h | h
  · rw [if_pos h]
    have : v ≤ (100 : Rat) := by linarith
    rw [min_eq_left this, max_eq_left (le_of_lt h)]
  · rw [if_neg (not_lt.mpr h)]
    rcases lt_or_le (100 : Rat) v with h2 | h2
    · rw [if_pos h2, min_eq_right (le_of_lt h2), max_eq_right]
      norm_num
    · rw [if_neg (not_lt.mpr h2), min_eq_left h2, max_eq_right h]

/-- C6 (confirmed): with the symbol's `volume_min = 0.01`,
`volume_max = 100`, `volume_step = 0.01`, the volume submitted by
`execute_trade` is the requested volume clamped into
`[volume_min, volume_max]` and then rounded to a multiple of
`volume_step` at distance at most half a step; in particular a request
of 0.005 trades exactly 0.01 and a request of 150 trades exactly 100. -/
theorem c6_volume_clamp_round (tr : TraderState) (w : World) (symbol : PyVal)
    (act : String) (price sl tp : PyVal) (slip : Int)
    (hc : tr.is_connected = true)
    (ha : strUpper act = "BUY" ∨ strUpper act = "SELL")
    (hmin : (w.symbolInfo symbol).volume_min = 1/100)
    (hmax : (w.symbolInfo symbol).volume_max = 100)
    (hstep : (w.symbolInfo symbol).volume_step = 1/100) :
    (∀ v : Rat, ∃ k : Int,
      ((MT5Trader.execute_trade tr w symbol (.str act) (.num v) price sl tp slip).sent.map
        (fun r => r.volume)) = some (.num ((k : Rat) * (1/100))) ∧
      |(k : Rat) * (1/100) - max (1/100) (min v 100)| ≤ 1/200) ∧
    ((MT5Trader.execute_trade tr w symbol (.str act) (.num (1/200)) price sl tp
        slip).sent.map (fun r => r.volume)) = some (.num (1/100)) ∧
    ((MT5Trader.execute_trade tr w symbol (.str act) (.num 150) price sl tp
        slip).sent.map (fun r => r.volume)) = some (.num 100) := by
  have hbs : (strUpper act = "BUY" || strUpper act = "SELL") = true := by
    rcases ha with h | h <;> simp [h]
  have key : ∀ v : Rat,
      ((MT5Trader.execute_trade tr w symbol (.str act) (.num v) price sl tp slip).sent.map
        (fun r => r.volume)) =
      some (.num ((pyRound (max (1/100) (min v 100) / (1/100)) : Rat) * (1/100))) := by
    intro v
    unfold MT5Trader.execute_trade
    rw [hc]
    simp only [Bool.not_true, Bool.false_eq_true, if_false, pyUpper, hbs, if_true]
    rw [hmin, hmax, hstep, clamp_ite_eq]
    rfl
  refine ⟨fun v => ?_, ?_, ?_⟩
  · refine ⟨pyRound (max (1/100) (min v 100) / (1/100)), key v, ?_⟩
    have hb := pyRound_close (max (1/100) (min v 100) / (1/100))
    have hexp : (pyRound (max (1/100) (min v 100) / (1/100)) : Rat) * (1/100) -
        max (1/100) (min v 100) =
        ((pyRound (max (1/100) (min v 100) / (1/100)) : Rat) -
          max (1/100) (min v 100) / (1/100)) * (1/100) := by ring
    rw [hexp, abs_mul]
    have : |(1/100 : Rat)| = 1/100 := by norm_num
    rw [this]
    nlinarith [hb]
  · rw [key (1/200)]
    norm_num [pyRound]
  · rw [key 150]
    norm_num [pyRound]

/-- C6 (witness): the two concrete clamps on the literal mock symbol
data. -/
theorem c6_volume_clamp_round_witness :
    ((MT5Trader.execute_trade ⟨true, .str "demo", .str "demo-server"⟩ w0
        (.str "EURUSD") (.str "BUY") (.num (1/200)) .none .none .none 3).sent.map
      (fun r => r.volume)) = some (.num (1/100)) ∧
    ((MT5Trader.execute_trade ⟨true, .str "demo", .str "demo-server"⟩ w0
        (.str "EURUSD") (.str "SELL") (.num 150) .none .none .none 3).sent.map
      (fun r => r.volume)) = some (.num 100) := by
  refine ⟨(c6_volume_clamp_round ⟨true, .str "demo", .str "demo-server"⟩ w0
      (.str "EURUSD") "BUY" .none .none .none 3 rfl (Or.inl (by decide))
      (by norm_num [w0, mockWorld, mockSymbolInfo])
      (by norm_num [w0, mockWorld, mockSymbolInfo])
      (by norm_num [w0, mockWorld, mockSymbolInfo])).2.1,
    (c6_volume_clamp_round ⟨true, .str "demo", .str "demo-server"⟩ w0
      (.str "EURUSD") "SELL" .none .none .none 3 rfl (Or.inr (by decide))
      (by norm_num [w0, mockWorld, mockSymbolInfo])
      (by norm_num [w0, mockWorld, mockSymbolInfo])
      (by norm_num [w0, mockWorld, mockSymbolInfo])).2.2⟩

/-! ### C5: HTTP status for an unknown routing key -/

/-- C5 (counterexample): the claim says an unknown routing key yields
HTTP 401; the route actually returns 400 (every processing failure,
including `"Invalid webhook key"`, maps to 400). -/
theorem c5_unknown_key_gives_400 :
    (webhook_multi_account [] (Sess.clean db0) w0 "unknown" (some pBuy)).1 = 400 ∧
    ¬(webhook_multi_account [] (Sess.clean db0) w0 "unknown" (some pBuy)).1 = 401 := by
  have h : (Sess.clean db0).working.activeByKey "unknown" = Option.none := by
    simp [Sess.clean, db0, DBState.activeByKey, accEUR]
  constructor <;>
    simp [webhook_multi_account, process_webhook_for_account, h]

/-- C5 (amended): a POST to `/webhook/<key>` with a routing key matching
no active account returns HTTP 400 — not 401 — with the manager state
and the store untouched (no Alert or Execution row); processing failures
on a valid key also map to HTTP 400. -/
theorem c5_unknown_key_behavior (mgr : MgrState) (s : Sess) (w : World) (key : String)
    (d : Payload) :
    (s.working.activeByKey key = Option.none →
      webhook_multi_account mgr s w key (some d) = (400, mgr, s)) ∧
    (∀ res, process_webhook_for_account mgr s w key d = res → res.1.1 = false →
      (webhook_multi_account mgr s w key (some d)).1 = 400) := by
  constructor
  · intro h
    simp [webhook_multi_account, process_webhook_for_account, h]
  · intro res hres hfalse
    obtain ⟨⟨ok, t, m⟩, mgr1, s1⟩ := res
    simp only at hfalse
    simp [webhook_multi_account, hres, hfalse]

/-- C5 (witness): the unknown-key branch at the concrete fixture. -/
theorem c5_unknown_key_behavior_witness :
    webhook_multi_account [] (Sess.clean db0) w0 "unknown" (some pBuy) =
      (400, [], Sess.clean db0) :=
  (c5_unknown_key_behavior [] (Sess.clean db0) w0 "unknown" pBuy).1
    (by simp [Sess.clean, db0, DBState.activeByKey, accEUR])

/-! ### C8: deleting an account -/

/-- C8 (counterexample): the claim says no delete operation physically
removes the account row, but the HTTP route
`/accounts/<id>/delete` (`routes.delete_account`) issues
`db.session.delete`, and afterwards the row is gone. -/
theorem c8_route_delete_is_hard :
    (route_delete_account (Sess.clean db0) 1).committed.accounts = [] := by
  simp [route_delete_account, Sess.clean, db0, accEUR, Sess.upd, Sess.commit]

/-- C8 (amended): `MultiAccountManager.delete_account` only soft-deletes:
when the account exists and the commit goes through, the result is
success, the cached live connection is dropped, and the account table is
unchanged except that the row's `is_active` flag is cleared — identity,
credentials, webhook key and counters survive.  The HTTP route
`delete_account`, by contrast, physically removes the row. -/
theorem c8_manager_delete_soft (mgr : MgrState) (s : Sess) (i : Nat)
    (acc : TradingAccount) (hfound : s.working.activeById i = some acc)
    (hok : s.commits = []) :
    manager_delete_account mgr s i =
      ((true, "Account deleted successfully"), mgr.erase i,
        Sess.clean (s.working.updAccount i (fun a => { a with is_active := false }))) := by
  obtain ⟨c, wk, cs⟩ := s
  simp only at hfound hok
  subst hok
  simp [manager_delete_account, hfound, Sess.upd, Sess.commit, Sess.clean]

/-- C8 (witness): deleting the fixture account soft-deletes it. -/
theorem c8_manager_delete_soft_witness :
    manager_delete_account [(1, TraderState.init)] (Sess.clean db0) 1 =
      ((true, "Account deleted successfully"), MgrState.erase [(1, TraderState.init)] 1,
        Sess.clean (db0.updAccount 1 (fun a => { a with is_active := false }))) :=
  c8_manager_delete_soft [(1, TraderState.init)] (Sess.clean db0) 1 accEUR
    (by simp [Sess.clean, db0, DBState.activeById, accEUR]) rfl

/-! ### Preservation plumbing shared by C1 and C3 -/

/-- A predicate holding on both session copies survives a commit of
either outcome. -/
theorem commit_pres (P : DBState → Prop) (s : Sess) (hw : P s.working)
    (hc : P s.committed) :
    P (s.commit).1.working ∧ P (s.commit).1.committed := by
  obtain ⟨c, wk, cs⟩ := s
  rcases cs with _ | ⟨b0, rest⟩
  · exact ⟨hw, hw⟩
  · rcases b0
    · exact ⟨hc, hc⟩
    · exact ⟨hw, hw⟩

/-- `P` on both session copies, the shape preserved by every pipeline
step. -/
def SessP (P : DBState → Prop) (s : Sess) : Prop := P s.working ∧ P s.committed

/-- A commit of either outcome preserves `SessP`. -/
theorem commit_presS (P : DBState → Prop) (s : Sess) (h : SessP P s) :
    SessP P (s.commit).1 :=
  commit_pres P s h.1 h.2

/-- A commit with an empty (all-success) schedule publishes the working
copy. -/
theorem commit_nil (c wk : DBState) : (⟨c, wk, []⟩ : Sess).commit = (⟨wk, wk, []⟩, true) :=
  rfl

/-- A rollback preserves `SessP`. -/
theorem rollback_presS (P : DBState → Prop) (s : Sess) (h : SessP P s) :
    SessP P s.rollback :=
  ⟨h.2, h.2⟩

/-- An uncommitted mutation through `f` preserves `SessP` when `P` is
stable under `f`. -/
theorem upd_presS (P : DBState → Prop) (s : Sess) (f : DBState → DBState)
    (hf : ∀ st, P st → P (f st)) (h : SessP P s) : SessP P (s.upd f) :=
  ⟨hf _ h.1, h.2⟩

/-- `test_account_connection` only updates account rows and
commits, so any store predicate stable under account updates is
preserved on both session copies. -/
theorem tconn_pres (P : DBState → Prop)
    (hupd : ∀ st i f, P st → P (DBState.updAccount st i f))
    (mgr : MgrState) (s : Sess) (w : World) (i : Nat)
    (h : SessP P s) :
    SessP P ((test_account_connection mgr s w i).2.2) := by
  unfold test_account_connection
  split
  · exact h
  · dsimp only
    split
    · split
      all_goals exact commit_presS P _ (upd_presS P s _ (fun st hst => hupd st i _ hst) h)
    · split
      all_goals exact commit_presS P _ (upd_presS P s _ (fun st hst => hupd st i _ hst) h)

/-- `execute_trade_for_account` only updates account rows and
commits, so any store predicate stable under account updates is
preserved on both session copies. -/
theorem exec_pres (P : DBState → Prop)
    (hupd : ∀ st i f, P st → P (DBState.updAccount st i f))
    (mgr : MgrState) (s : Sess) (w : World) (i : Nat) (d : Payload)
    (h : SessP P s) :
    SessP P ((execute_trade_for_account mgr s w i d).2.2) := by
  unfold execute_trade_for_account
  split
  · exact h
  · dsimp only
    have ht := tconn_pres P hupd mgr s w i h
    split
    next r heq =>
      split at heq
      · simp at heq
      · split at heq
        · simp at heq
        · rw [Except.error.injEq] at heq
          cases heq
          exact ht
    next mgr1 s1 heq =>
      have hs1 : SessP P s1 := by
        split at heq
        · rw [Except.ok.injEq] at heq
          cases heq
          exact h
        · split at heq
          · rw [Except.ok.injEq] at heq
            cases heq
            exact ht
          · simp at heq
      split
      · exact hs1
      · split
        · exact hs1
        · split
          all_goals
            exact commit_presS P _ (upd_presS P s1 _ (fun st hst => hupd st i _ hst) hs1)


/-! ### C1: missing `symbol`/`action` on the two entry points -/

/-- Key absence and `d[k]` lookup agree. -/
theorem hasKey_false_iff (d : Payload) (k : String) :
    Payload.hasKey d k = false ↔ Payload.get? d k = Option.none := by
  unfold Payload.hasKey Payload.get?
  cases List.find? (fun kv => kv.1 = k) d <;> simp

/-- Key presence and `d[k]` lookup agree. -/
theorem hasKey_true_iff (d : Payload) (k : String) :
    Payload.hasKey d k = true ↔ ∃ v, Payload.get? d k = some v := by
  unfold Payload.hasKey Payload.get?
  cases List.find? (fun kv => kv.1 = k) d <;> simp

/-- Account-row updates leave the alert table alone. -/
theorem updAccount_alerts (st : DBState) (i : Nat) (f : TradingAccount → TradingAccount) :
    (st.updAccount i f).alerts = st.alerts := rfl

/-- Alert-status updates preserve the number of alert rows. -/
theorem updAlert_alerts_length (st : DBState) (i : Nat) (f : WebhookAlert → WebhookAlert) :
    (st.updAlert i f).alerts.length = st.alerts.length := by
  simp [DBState.updAlert]

/-- Execution inserts leave the alert table alone. -/
theorem addExec_alerts (st : DBState) (e : Nat → TradeExecution) :
    (st.addExec e).alerts = st.alerts := rfl

/-- C1 (counterexample): the empty payload — missing both `symbol` and
`action` — sent to a valid routing key still persists an Alert row
(with empty-string symbol/action, ending FAILED), contradicting the
claim that no Alert is persisted on the `process_for_account` path. -/
theorem c1_multi_path_persists_alert :
    ((process_webhook_for_account [] (Sess.clean db0) w0 "abc-key"
        []).2.2).committed.alerts.map (fun a => (a.symbol, a.action, a.status)) =
      [(.str "", .str "", "FAILED")] ∧
    (process_webhook_for_account [] (Sess.clean db0) w0 "abc-key" []).1.1 = false := by
  constructor <;>
    simp [process_webhook_for_account, execute_trade_for_account,
      test_account_connection, MT5Trader.connect, MT5Trader.execute_trade,
      MT5Trader.close_position, MgrState.lookup, MgrState.insert, Payload.getN,
      Payload.getD, Payload.get?, pyOr, pyTruthy, pyUpper, pyStr, strUpper, pyInt,
      DBState.activeByKey, DBState.activeById, DBState.addAlert, DBState.addExec,
      DBState.updAccount, DBState.updAlert, Sess.upd, Sess.commit, Sess.rollback,
      Sess.clean, bumpCounters, ticketTruthy, db0, accEUR, cfg0, w0, mockWorld,
      mockSymbolInfo, TraderState.init, takeDigits, natOfDigits, digitVal?,
      TRADE_RETCODE_DONE, volumeCmpExn, PyExn.text, statusStr, errStr,
      show ("10.0.0.1:" ++ "443" : String) = "10.0.0.1:443" from rfl]

/-- Any run of `process_webhook_for_account` on a session with no
pending writes, an all-success commit schedule and a matching active
account adds exactly one Alert row to the durable store. -/
theorem pwfa_adds_one_alert (mgr : MgrState) (sc sw : DBState) (w : World)
    (key : String) (d : Payload) (acc : TradingAccount)
    (hacc : sw.activeByKey key = some acc) :
    ((process_webhook_for_account mgr ⟨sc, sw, []⟩ w key d).2.2).committed.alerts.length =
      sw.alerts.length + 1 := by
  have hupd : ∀ st i f, (fun st => st.alerts.length = sw.alerts.length + 1) st →
      (fun st => st.alerts.length = sw.alerts.length + 1) (DBState.updAccount st i f) := by
    intro st i f hst
    simpa [updAccount_alerts] using hst
  have hbase : ∀ a : Nat → WebhookAlert,
      SessP (fun st => st.alerts.length = sw.alerts.length + 1)
        ⟨(sw.addAlert a).1, (sw.addAlert a).1, []⟩ := by
    intro a
    constructor <;> simp [DBState.addAlert]
  unfold process_webhook_for_account
  simp only [hacc]
  try dsimp only
  simp only [commit_nil, Bool.not_true, Bool.false_eq_true, if_false]
  split
  · split
    · refine (rollback_presS _ _ (upd_presS _ _ _ ?_
        (exec_pres _ hupd mgr _ w acc.id d (hbase _)))).2
      intro st hst
      simpa [updAlert_alerts_length] using hst
    · split
      · refine (commit_presS _ _ (upd_presS _ _ _ ?_ (upd_presS _ _ _ ?_
          (exec_pres _ hupd mgr _ w acc.id d (hbase _))))).2
        · intro st hst
          simpa [addExec_alerts] using hst
        · intro st hst
          simpa [updAlert_alerts_length] using hst
      · refine (rollback_presS _ _ (commit_presS _ _ (upd_presS _ _ _ ?_
          (upd_presS _ _ _ ?_
            (exec_pres _ hupd mgr _ w acc.id d (hbase _)))))).2
        · intro st hst
          simpa [addExec_alerts] using hst
        · intro st hst
          simpa [updAlert_alerts_length] using hst
  · split
    · refine (commit_presS _ _ (upd_presS _ _ _ ?_
        (exec_pres _ hupd mgr _ w acc.id d (hbase _)))).2
      intro st hst
      simpa [updAlert_alerts_length] using hst
    · refine (rollback_presS _ _ (commit_presS _ _ (upd_presS _ _ _ ?_
        (exec_pres _ hupd mgr _ w acc.id d (hbase _))))).2
      intro st hst
      simpa [updAlert_alerts_length] using hst

/-- C1 (amended): on the single-account `process(payload, authToken)`
path a payload missing `symbol` (or `action`) fails with the
field-specific message and leaves the store untouched, exactly as
claimed; the multi-account `process_for_account(routingKey, payload)`
path, however, performs no such validation — for every payload (in
particular one missing `symbol`/`action`) it persists exactly one new
Alert row. -/
theorem c1_missing_fields :
    (∀ tr s w d key, validate_api_key s.working key = true →
      Payload.hasKey d "symbol" = false →
      process_webhook tr s w d key =
        (⟨false, "Missing required field: symbol", Option.none⟩, tr, s)) ∧
    (∀ tr s w d key, validate_api_key s.working key = true →
      Payload.hasKey d "symbol" = true → Payload.hasKey d "action" = false →
      process_webhook tr s w d key =
        (⟨false, "Missing required field: action", Option.none⟩, tr, s)) ∧
    (∀ mgr s w key d acc, s.working.activeByKey key = some acc → s.commits = [] →
      ((process_webhook_for_account mgr s w key d).2.2).committed.alerts.length =
        s.working.alerts.length + 1) := by
  refine ⟨?_, ?_, ?_⟩
  · intro tr s w d key hk hsym
    have hp : parse_webhook_data d = .error "Missing required field: symbol" := by
      unfold parse_webhook_data
      rw [(hasKey_false_iff d "symbol").mp hsym]
    simp [process_webhook, hk, hp]
  · intro tr s w d key hk hsym hact
    obtain ⟨v, hv⟩ := (hasKey_true_iff d "symbol").mp hsym
    have hp : parse_webhook_data d = .error "Missing required field: action" := by
      unfold parse_webhook_data
      rw [hv, (hasKey_false_iff d "action").mp hact]
    simp [process_webhook, hk, hp]
  · intro mgr s w key d acc hacc hcs
    obtain ⟨sc, sw, scs⟩ := s
    simp only at hacc hcs
    subst hcs
    exact pwfa_adds_one_alert mgr sc sw w key d acc hacc

/-- C1 (witness): both field-specific single-account failures, and the
multi-account run that persists one Alert for a payload the claim says
persists none. -/
theorem c1_missing_fields_witness :
    process_webhook TraderState.init (Sess.clean db0) w0 [("action", PyVal.str "BUY")]
        "webhook-api-key" =
      (⟨false, "Missing required field: symbol", Option.none⟩, TraderState.init,
        Sess.clean db0) ∧
    process_webhook TraderState.init (Sess.clean db0) w0 [("symbol", PyVal.str "EURUSD")]
        "webhook-api-key" =
      (⟨false, "Missing required field: action", Option.none⟩, TraderState.init,
        Sess.clean db0) ∧
    ((process_webhook_for_account [] (Sess.clean db0) w0 "abc-key"
        []).2.2).committed.alerts.length = 1 := by
  refine ⟨c1_missing_fields.1 _ _ _ _ _ ?_ ?_,
    c1_missing_fields.2.1 _ _ _ _ _ ?_ ?_ ?_, ?_⟩
  · simp [validate_api_key, Sess.clean, db0, cfg0]
  · decide
  · simp [validate_api_key, Sess.clean, db0, cfg0]
  · decide
  · decide
  · have h := c1_missing_fields.2.2 [] (Sess.clean db0) w0 "abc-key" [] accEUR
      (by simp [Sess.clean, db0, DBState.activeByKey, accEUR]) rfl
    simpa [Sess.clean, db0] using h

/-! ### C3: Execution rows capturing trade outcomes -/

/-- A successful commit publishes the working copy. -/
theorem commit_true_eq (s : Sess) (h : (s.commit).2 = true) :
    (s.commit).1.committed = s.working ∧ (s.commit).1.working = s.working := by
  obtain ⟨c, wk, cs⟩ := s
  rcases cs with _ | ⟨b, rest⟩
  · exact ⟨rfl, rfl⟩
  · rcases b
    · simp [Sess.commit] at h
    · exact ⟨rfl, rfl⟩

/-- A failed commit rolls both copies back to the committed snapshot. -/
theorem commit_false_eq (s : Sess) (h : (s.commit).2 = false) :
    (s.commit).1.committed = s.committed ∧ (s.commit).1.working = s.committed := by
  obtain ⟨c, wk, cs⟩ := s
  rcases cs with _ | ⟨b, rest⟩
  · simp [Sess.commit] at h
  · rcases b
    · exact ⟨rfl, rfl⟩
    · simp [Sess.commit] at h

/-- Account updates leave the execution table alone. -/
theorem updAccount_execs (st : DBState) (i : Nat) (f : TradingAccount → TradingAccount) :
    (st.updAccount i f).executions = st.executions := rfl

/-- Alert updates leave the execution table alone. -/
theorem updAlert_execs (st : DBState) (i : Nat) (f : WebhookAlert → WebhookAlert) :
    (st.updAlert i f).executions = st.executions := rfl

/-- On the multi-account path, the durable execution table either stays
as it was, or — only when the webhook result reports success — grows by
exactly one row. -/
theorem pwfa_exec_rows (mgr : MgrState) (sc sw : DBState) (w : World)
    (key : String) (d : Payload) (acc : TradingAccount)
    (hacc : sw.activeByKey key = some acc) :
    (((process_webhook_for_account mgr ⟨sc, sw, []⟩ w key
        d).2.2).committed.executions.length = sw.executions.length) ∨
    ((process_webhook_for_account mgr ⟨sc, sw, []⟩ w key d).1.1 = true ∧
      (((process_webhook_for_account mgr ⟨sc, sw, []⟩ w key
        d).2.2).committed.executions.length = sw.executions.length + 1)) := by
  have hupd : ∀ st i f, (fun st => st.executions = sw.executions) st →
      (fun st => st.executions = sw.executions) (DBState.updAccount st i f) := by
    intro st i f hst
    simpa [updAccount_execs] using hst
  have hbase : ∀ a : Nat → WebhookAlert,
      SessP (fun st => st.executions = sw.executions)
        ⟨(sw.addAlert a).1, (sw.addAlert a).1, []⟩ := by
    intro a
    constructor <;> simp [DBState.addAlert]
  have hexecw : ∀ a : Nat → WebhookAlert,
      ((execute_trade_for_account mgr ⟨(sw.addAlert a).1, (sw.addAlert a).1, []⟩ w
        acc.id d).2.2).working.executions = sw.executions :=
    fun a => (exec_pres _ hupd mgr _ w acc.id d (hbase a)).1
  have hexecc : ∀ a : Nat → WebhookAlert,
      ((execute_trade_for_account mgr ⟨(sw.addAlert a).1, (sw.addAlert a).1, []⟩ w
        acc.id d).2.2).committed.executions = sw.executions :=
    fun a => (exec_pres _ hupd mgr _ w acc.id d (hbase a)).2
  unfold process_webhook_for_account
  simp only [hacc]
  try dsimp only
  simp only [commit_nil, Bool.not_true, Bool.false_eq_true, if_false]
  split
  next hcond =>
    rw [Bool.and_eq_true] at hcond
    split
    · left
      dsimp only [Sess.rollback, Sess.upd]
      rw [hexecc]
    · split
      next htk hc2 =>
        right
        refine ⟨hcond.1, ?_⟩
        rw [(commit_true_eq _ hc2).1]
        dsimp only [Sess.upd]
        simp only [DBState.addExec, updAlert_execs, DBState.updAlert]
        rw [hexecw]
        simp
      next htk hc2 =>
        left
        rw [Bool.not_eq_true] at hc2
        dsimp only [Sess.rollback]
        rw [(commit_false_eq _ hc2).1]
        dsimp only [Sess.upd]
        rw [hexecc]
  next hcond =>
    split
    next hc2 =>
      left
      rw [(commit_true_eq _ hc2).1]
      dsimp only [Sess.upd]
      simp only [updAlert_execs, DBState.updAlert]
      rw [hexecw]
    next hc2 =>
      left
      rw [Bool.not_eq_true] at hc2
      dsimp only [Sess.rollback]
      rw [(commit_false_eq _ hc2).1]
      dsimp only [Sess.upd]
      rw [hexecc]

/-- C3 (counterexample): on the multi-account path, a CLOSE against a
symbol with zero open positions fails with the claimed message but
leaves the execution table empty — no FAILED Execution row is
persisted, contradicting the claim. -/
theorem c3_multi_close_has_no_exec_row :
    (process_webhook_for_account [] (Sess.clean db0) w0 "abc-key" pClose).1 =
      (false, Option.none, "No open positions for EURUSD") ∧
    ((process_webhook_for_account [] (Sess.clean db0) w0 "abc-key"
        pClose).2.2).committed.executions = [] := by
  constructor <;>
    simp [process_webhook_for_account, execute_trade_for_account,
      test_account_connection, MT5Trader.connect, MT5Trader.execute_trade,
      MT5Trader.close_position, MgrState.lookup, MgrState.insert, Payload.getN,
      Payload.getD, Payload.get?, pyOr, pyTruthy, pyUpper, pyStr, strUpper, pyInt,
      DBState.activeByKey, DBState.activeById, DBState.addAlert, DBState.addExec,
      DBState.updAccount, DBState.updAlert, Sess.upd, Sess.commit, Sess.rollback,
      Sess.clean, bumpCounters, ticketTruthy, db0, accEUR, cfg0, w0, mockWorld,
      mockSymbolInfo, TraderState.init, takeDigits, natOfDigits, digitVal?,
      TRADE_RETCODE_DONE, volumeCmpExn, PyExn.text, statusStr, errStr, pClose,
      show ("10.0.0.1:" ++ "443" : String) = "10.0.0.1:443" from rfl,
      show ("No open positions for " ++ "EURUSD" : String) =
        "No open positions for EURUSD" from rfl]

/-- C3 (amended): on the single-account pipeline the claim holds — a
CLOSE with zero open positions fails with
`"No open positions for <symbol>"` and persists a FAILED Execution row
with that error text, and a BUY/SELL attempt that reaches the broker
persists an Execution row whose status is FILLED exactly when the
attempt succeeded, with the error text on failure; on the multi-account
pipeline, however, an Execution row is recorded only when the attempt
succeeded with a ticket — failed attempts (and ticketless CLOSE
successes) leave the execution table unchanged. -/
theorem c3_execution_rows :
    (∀ tr s w alertId symbol, tr.is_connected = true → s.commits = [] →
      w.positions symbol = [] →
      handlerClosePositions tr s w alertId symbol =
        (⟨false, "No open positions for " ++ pyStr symbol, Option.none⟩, tr,
          Sess.clean (s.working.addExec (fun i =>
            { id := i, webhook_alert_id := some alertId, mt5_ticket := Option.none,
              symbol := symbol, action := .str "CLOSE", volume := .num 0,
              open_price := .none, stop_loss := .none, take_profit := .none,
              status := "FAILED",
              error_message := some ("No open positions for " ++ pyStr symbol),
              executed_at := w.now })))) ∧
    (∀ tr s w alertId p v cfg, tr.is_connected = true → s.commits = [] →
      (p.action = "BUY" ∨ p.action = "SELL") →
      s.working.config = some cfg → cfg.is_active = true →
      p.volume = some v →
      (check_risk_limits s.working w p.symbol v).1 = true →
      ∃ e, ((handlerExecuteTrade tr s w alertId p).2.2).committed.executions
          = s.working.executions ++ [e] ∧
        e.status = statusStr (handlerExecuteTrade tr s w alertId p).1.success
          "FILLED" "FAILED" ∧
        e.error_message = errStr (handlerExecuteTrade tr s w alertId p).1.success
          (handlerExecuteTrade tr s w alertId p).1.message) ∧
    (∀ mgr sc sw w key d acc, sw.activeByKey key = some acc →
      ((((process_webhook_for_account mgr ⟨sc, sw, []⟩ w key
          d).2.2).committed.executions.length = sw.executions.length) ∨
        ((process_webhook_for_account mgr ⟨sc, sw, []⟩ w key d).1.1 = true ∧
          (((process_webhook_for_account mgr ⟨sc, sw, []⟩ w key
            d).2.2).committed.executions.length = sw.executions.length + 1)))) := by
  refine ⟨?_, ?_, ?_⟩
  · intro tr s w alertId symbol hcn hcs hpos
    obtain ⟨sc, sw, scs⟩ := s
    simp only at hcs
    subst hcs
    simp [handlerClosePositions, hcn, MT5Trader.close_position, hpos, commit_nil,
      Sess.upd, Sess.clean, statusStr, errStr]
  · intro tr s w alertId p v cfg hcn hcs hact hcfg hactive hv hrisk
    obtain ⟨sc, sw, scs⟩ := s
    simp only at hcs hcfg hrisk
    subst hcs
    have hnc : (p.action = "CLOSE") = False := by
      rcases hact with h | h <;> simp [h]
    simp only [handlerExecuteTrade, hnc, hcfg, hactive, hv, hrisk, hcn, commit_nil,
      Sess.upd, Sess.clean, DBState.addExec, if_false, Bool.not_true, Bool.not_false,
      Bool.false_eq_true, Bool.true_eq_false, if_true, ite_false, ite_true]
    exact ⟨_, rfl, rfl, rfl⟩
  · intro mgr sc sw w key d acc hacc
    exact pwfa_exec_rows mgr sc sw w key d acc hacc

/-- C3 (witness): the single-account CLOSE round trip on the concrete
fixture: failure message and a FAILED Execution row. -/
theorem c3_execution_rows_witness :
    handlerClosePositions ⟨true, .str "demo", .str "demo-server"⟩ (Sess.clean db0) w0 7
        (.str "EURUSD") =
      (⟨false, "No open positions for " ++ pyStr (.str "EURUSD"), Option.none⟩,
        ⟨true, .str "demo", .str "demo-server"⟩,
        Sess.clean (db0.addExec (fun i =>
          { id := i, webhook_alert_id := some 7, mt5_ticket := Option.none,
            symbol := .str "EURUSD", action := .str "CLOSE", volume := .num 0,
            open_price := .none, stop_loss := .none, take_profit := .none,
            status := "FAILED",
            error_message := some ("No open positions for " ++ pyStr (.str "EURUSD")),
            executed_at := w0.now }))) :=
  c3_execution_rows.1 ⟨true, .str "demo", .str "demo-server"⟩ (Sess.clean db0) w0 7
    (.str "EURUSD") rfl rfl (by simp [w0, mockWorld])

/-! ### C2: terminal Alert status under late failures -/

/-- C2 (code evaluated at the failing input): a valid BUY webhook on the
multi-account path whose *final* status-update commit fails (schedule
`[true, true, true, false]`: the Alert insert, connection-flag and
counter commits succeed, the terminal commit raises).  The pipeline
returns a failure, and the durably stored Alert remains in the
non-terminal RECEIVED state forever — the terminal-status guarantee the
claim states does not survive an exception after the Alert row is
created. -/
theorem c2_commit_failure_leaves_alert_received :
    ((process_webhook_for_account [] ⟨db0, db0, [true, true, true, false]⟩ w0 "abc-key"
        pBuy).2.2).committed.alerts.map (fun a => a.status) = ["RECEIVED"] ∧
    (process_webhook_for_account [] ⟨db0, db0, [true, true, true, false]⟩ w0 "abc-key"
        pBuy).1.1 = false := by
  constructor <;>
    simp [process_webhook_for_account, execute_trade_for_account,
      test_account_connection, MT5Trader.connect, MT5Trader.execute_trade,
      MT5Trader.close_position, MgrState.lookup, MgrState.insert, Payload.getN,
      Payload.getD, Payload.get?, pyOr, pyTruthy, pyUpper, pyStr, strUpper,
      DBState.activeByKey, DBState.activeById, DBState.addAlert, DBState.addExec,
      DBState.updAccount, DBState.updAlert, Sess.upd, Sess.commit, Sess.rollback,
      Sess.clean, bumpCounters, ticketTruthy, db0, accEUR, cfg0, w0, mockWorld,
      mockSymbolInfo, TraderState.init, TRADE_RETCODE_DONE, volumeCmpExn,
      PyExn.text, statusStr, errStr, pBuy,
      show ("10.0.0.1:" ++ "443" : String) = "10.0.0.1:443" from rfl,
      show pyInt (.str "12345678") = .ok 12345678 from by decide,
      show (toString (123456 : Int)) = "123456" from rfl,
      show pyInt (.str "123456") = .ok 123456 from by decide]

/-! ### C7: account trade counters -/

/-- Pointwise counter growth between two account snapshots. -/
def countersLE (a b : TradingAccount) : Prop :=
  a.total_trades ≤ b.total_trades ∧ a.successful_trades ≤ b.successful_trades ∧
  a.failed_trades ≤ b.failed_trades

/-- Every account row of `x` survives into `y` (matched by id) with
counters that have not decreased. -/
def accountsMono (x y : List TradingAccount) : Prop :=
  ∀ a ∈ x, ∃ b ∈ y, b.id = a.id ∧ countersLE a b

/-- `successful + failed ≤ total` on one account row. -/
def counterInv (a : TradingAccount) : Prop :=
  a.successful_trades + a.failed_trades ≤ a.total_trades

/-- The counter invariant over the whole account table. -/
def allInv (st : DBState) : Prop := ∀ a ∈ st.accounts, counterInv a

theorem countersLE_refl (a : TradingAccount) : countersLE a a :=
  ⟨le_refl _, le_refl _, le_refl _⟩

theorem countersLE_trans {a b c : TradingAccount} (h1 : countersLE a b)
    (h2 : countersLE b c) : countersLE a c :=
  ⟨le_trans h1.1 h2.1, le_trans h1.2.1 h2.2.1, le_trans h1.2.2 h2.2.2⟩

theorem accountsMono_refl (x : List TradingAccount) : accountsMono x x :=
  fun a ha => ⟨a, ha, rfl, countersLE_refl a⟩

theorem accountsMono_of_eq {x y : List TradingAccount} (h : x = y) : accountsMono x y :=
  h ▸ accountsMono_refl x

theorem accountsMono_trans {x y z : List TradingAccount} (h1 : accountsMono x y)
    (h2 : accountsMono y z) : accountsMono x z := by
  intro a ha
  obtain ⟨b, hb, hid, hle⟩ := h1 a ha
  obtain ⟨c, hc, hid2, hle2⟩ := h2 b hb
  exact ⟨c, hc, hid2.trans hid, countersLE_trans hle hle2⟩

/-- A per-row update that keeps the id and never lowers counters makes
the mapped table a monotone successor. -/
theorem accountsMono_map (x : List TradingAccount) (i : Nat)
    (g : TradingAccount → TradingAccount)
    (hg : ∀ a, (g a).id = a.id ∧ countersLE a (g a)) :
    accountsMono x (x.map (fun a => if a.id = i then g a else a)) := by
  intro a ha
  refine ⟨if a.id = i then g a else a, List.mem_map_of_mem _ ha, ?_, ?_⟩
  · split
    · exact (hg a).1
    · rfl
  · split
    · exact (hg a).2
    · exact countersLE_refl a

/-- Appending rows preserves monotone membership of the old ones. -/
theorem accountsMono_append (x y : List TradingAccount) :
    accountsMono x (x ++ y) := by
  intro a ha
  exact ⟨a, List.mem_append_left _ ha, rfl, countersLE_refl a⟩

/-- The relation each manager operation preserves: the durable account
table only grows monotonically, the working copy stays ahead of it, and
the counter invariant survives on both copies. -/
def MonoInv (s t : Sess) : Prop :=
  (accountsMono s.committed.accounts s.working.accounts →
    accountsMono s.committed.accounts t.committed.accounts ∧
    accountsMono t.committed.accounts t.working.accounts) ∧
  ((allInv s.committed ∧ allInv s.working) → allInv t.committed ∧ allInv t.working)

theorem mi_refl (s : Sess) : MonoInv s s :=
  ⟨fun h => ⟨accountsMono_refl _, h⟩, fun h => h⟩

theorem mi_trans {s t u : Sess} (h1 : MonoInv s t) (h2 : MonoInv t u) : MonoInv s u := by
  constructor
  · intro hcoh
    obtain ⟨h1c, h1coh⟩ := h1.1 hcoh
    obtain ⟨h2c, h2coh⟩ := h2.1 h1coh
    exact ⟨accountsMono_trans h1c h2c, h2coh⟩
  · intro hinv
    exact h2.2 (h1.2 hinv)

theorem mi_commit (s : Sess) : MonoInv s (s.commit).1 := by
  obtain ⟨c, wk, cs⟩ := s
  rcases cs with _ | ⟨b, rest⟩
  · exact ⟨fun h => ⟨h, accountsMono_refl _⟩, fun h => ⟨h.2, h.2⟩⟩
  · rcases b
    · exact ⟨fun _ => ⟨accountsMono_refl _, accountsMono_refl _⟩, fun h => ⟨h.1, h.1⟩⟩
    · exact ⟨fun h => ⟨h, accountsMono_refl _⟩, fun h => ⟨h.2, h.2⟩⟩

theorem mi_rollback (s : Sess) : MonoInv s s.rollback :=
  ⟨fun _ => ⟨accountsMono_refl _, accountsMono_refl _⟩, fun h => ⟨h.1, h.1⟩⟩

/-- Replacing the working copy by a monotone, invariant-preserving
successor. -/
theorem mi_setWorking (s : Sess) (X : DBState)
    (hmono : accountsMono s.working.accounts X.accounts)
    (hinv : allInv s.working → allInv X) :
    MonoInv s ⟨s.committed, X, s.commits⟩ := by
  constructor
  · intro hcoh
    exact ⟨accountsMono_refl _, accountsMono_trans hcoh hmono⟩
  · intro h
    exact ⟨h.1, hinv h.2⟩

theorem bump_id_le (ok : Bool) (a : TradingAccount) :
    (bumpCounters ok a).id = a.id ∧ countersLE a (bumpCounters ok a) := by
  cases ok <;> simp [bumpCounters, countersLE]

theorem bump_inv (ok : Bool) (a : TradingAccount) (h : counterInv a) :
    counterInv (bumpCounters ok a) := by
  cases ok <;> simp [bumpCounters, counterInv] at h ⊢ <;> omega

theorem allInv_map (st : DBState) (i : Nat) (g : TradingAccount → TradingAccount)
    (hg : ∀ a, counterInv a → counterInv (g a)) (h : allInv st) :
    allInv (st.updAccount i g) := by
  intro a ha
  simp only [DBState.updAccount, List.mem_map] at ha
  obtain ⟨b, hb, rfl⟩ := ha
  split
  · exact hg b (h b hb)
  · exact h b hb

theorem mi_updAccount (s : Sess) (i : Nat) (g : TradingAccount → TradingAccount)
    (hg1 : ∀ a, (g a).id = a.id ∧ countersLE a (g a))
    (hg2 : ∀ a, counterInv a → counterInv (g a)) :
    MonoInv s (s.upd (fun st => st.updAccount i g)) :=
  mi_setWorking s _ (accountsMono_map _ i g hg1) (allInv_map _ i g hg2)

theorem mi_updOther (s : Sess) (f : DBState → DBState)
    (hf : ∀ st, (f st).accounts = st.accounts) :
    MonoInv s (s.upd f) := by
  refine mi_setWorking s _ (accountsMono_of_eq (hf _).symm) ?_
  intro h a ha
  rw [hf] at ha
  exact h a ha

/-- `test_account_connection` respects counter monotonicity and the
invariant. -/
theorem mi_tconn (mgr : MgrState) (s : Sess) (w : World) (i : Nat) :
    MonoInv s ((test_account_connection mgr s w i).2.2) := by
  unfold test_account_connection
  split
  · exact mi_refl s
  · dsimp only
    split
    · split
      all_goals dsimp only
      all_goals refine mi_trans (mi_updAccount s i _ ?_ ?_) (mi_commit _)
      all_goals first
        | (intro a; exact ⟨rfl, le_refl _, le_refl _, le_refl _⟩)
        | (intro a h; exact h)
    · split
      all_goals dsimp only
      all_goals refine mi_trans (mi_updAccount s i _ ?_ ?_) (mi_commit _)
      all_goals first
        | (intro a; exact ⟨rfl, le_refl _, le_refl _, le_refl _⟩)
        | (intro a h; exact h)

/-- `execute_trade_for_account` respects counter monotonicity and the
invariant. -/
theorem mi_exec (mgr : MgrState) (s : Sess) (w : World) (i : Nat) (d : Payload) :
    MonoInv s ((execute_trade_for_account mgr s w i d).2.2) := by
  unfold execute_trade_for_account
  split
  · exact mi_refl s
  · dsimp only
    have ht := mi_tconn mgr s w i
    split
    next r heq =>
      split at heq
      · simp at heq
      · split at heq
        · simp at heq
        · rw [Except.error.injEq] at heq
          cases heq
          exact ht
    next mgr1 s1 heq =>
      have hs1 : MonoInv s s1 := by
        split at heq
        · rw [Except.ok.injEq] at heq
          cases heq
          exact mi_refl s
        · split at heq
          · rw [Except.ok.injEq] at heq
            cases heq
            exact ht
          · simp at heq
      split
      · exact hs1
      · split
        · exact hs1
        · try dsimp only
          split
          all_goals exact mi_trans hs1 (mi_trans
            (mi_updAccount s1 i _ (bump_id_le _) (bump_inv _)) (mi_commit _))

/-- `create_account` respects counter monotonicity and the invariant
(the fresh row starts with all-zero counters). -/
theorem mi_create (s : Sess) (w : World) (d : Payload) :
    MonoInv s ((create_account s w d).2) := by
  have hadd : ∀ f : Nat → TradingAccount, (∀ n, counterInv (f n)) →
      MonoInv s ⟨s.committed, (s.working.addAccount f).1, s.commits⟩ := by
    intro f hf
    refine mi_setWorking s _ ?_ ?_
    · simp only [DBState.addAccount]
      exact accountsMono_append _ _
    · intro h a ha
      simp only [DBState.addAccount, List.mem_append, List.mem_singleton] at ha
      rcases ha with ha | rfl
      · exact h a ha
      · exact hf _
  unfold create_account
  split
  · dsimp only
    split
    · refine mi_trans (hadd _ ?_) (mi_commit _)
      intro n
      simp [counterInv]
    · refine mi_trans (mi_trans (hadd _ ?_) (mi_commit _)) (mi_rollback _)
      intro n
      simp [counterInv]
  · exact mi_rollback s

theorem addAlert_accounts (st : DBState) (a : Nat → WebhookAlert) :
    (st.addAlert a).1.accounts = st.accounts := rfl

theorem addExec_accounts (st : DBState) (e : Nat → TradeExecution) :
    (st.addExec e).accounts = st.accounts := rfl

theorem updAlert_accounts (st : DBState) (i : Nat) (f : WebhookAlert → WebhookAlert) :
    (st.updAlert i f).accounts = st.accounts := rfl

/-- `process_webhook_for_account` respects counter monotonicity and the
invariant. -/
theorem mi_pwfa (mgr : MgrState) (s : Sess) (w : World) (key : String) (d : Payload) :
    MonoInv s ((process_webhook_for_account mgr s w key d).2.2) := by
  have m1 : ∀ a : Nat → WebhookAlert,
      MonoInv s ⟨s.committed, (s.working.addAlert a).1, s.commits⟩ := by
    intro a
    refine mi_setWorking s _ (accountsMono_of_eq (addAlert_accounts _ _).symm) ?_
    intro h b hb
    rw [addAlert_accounts] at hb
    exact h b hb
  have mc1 : ∀ a : Nat → WebhookAlert,
      MonoInv s ((⟨s.committed, (s.working.addAlert a).1, s.commits⟩ : Sess).commit).1 :=
    fun a => mi_trans (m1 a) (mi_commit _)
  have ms3 : ∀ (a : Nat → WebhookAlert) (i : Nat) (g : WebhookAlert → WebhookAlert),
      MonoInv s (((execute_trade_for_account mgr
        ((⟨s.committed, (s.working.addAlert a).1, s.commits⟩ : Sess).commit).1 w i
        d).2.2).upd (fun st => st.updAlert (s.working.addAlert a).2 g)) :=
    fun a i g => mi_trans (mi_trans (mc1 a) (mi_exec mgr _ w i d))
      (mi_updOther _ _ (fun st => updAlert_accounts st _ _))
  unfold process_webhook_for_account
  split
  · exact mi_refl s
  · dsimp only
    split
    · exact mi_trans (mc1 _) (mi_rollback _)
    · split
      · split
        · exact mi_trans (ms3 _ _ _) (mi_rollback _)
        · split
          · exact mi_trans (mi_trans (ms3 _ _ _)
              (mi_updOther _ _ (fun st => addExec_accounts st _))) (mi_commit _)
          · exact mi_trans (mi_trans (mi_trans (ms3 _ _ _)
              (mi_updOther _ _ (fun st => addExec_accounts st _))) (mi_commit _))
              (mi_rollback _)
      · split
        · exact mi_trans (ms3 _ _ _) (mi_commit _)
        · exact mi_trans (ms3 _ _ _) (mi_trans (mi_commit _) (mi_rollback _))

/-- `delete_account` respects counter monotonicity and the invariant
(deactivation leaves the counters alone). -/
theorem mi_delete (mgr : MgrState) (s : Sess) (i : Nat) :
    MonoInv s ((manager_delete_account mgr s i).2.2) := by
  unfold manager_delete_account
  split
  · exact mi_refl s
  · dsimp only
    split
    · refine mi_trans (mi_updAccount s i _ ?_ ?_) (mi_commit _)
      · intro a
        exact ⟨rfl, le_refl _, le_refl _, le_refl _⟩
      · intro a h
        exact h
    · refine mi_trans (mi_trans (mi_updAccount s i _ ?_ ?_) (mi_commit _))
        (mi_rollback _)
      · intro a
        exact ⟨rfl, le_refl _, le_refl _, le_refl _⟩
      · intro a h
        exact h

/-- The operations `MultiAccountManager` exposes. -/
inductive MgrOp where
  | create (d : Payload)
  | testConn (i : Nat)
  | execTrade (i : Nat) (d : Payload)
  | processHook (key : String) (d : Payload)
  | deleteAcc (i : Nat)

/-- One manager operation, as a transition on connection cache and
session. -/
def mgrStep (w : World) (mgr : MgrState) (s : Sess) : MgrOp → MgrState × Sess
  | .create d => (mgr, (create_account s w d).2)
  | .testConn i =>
    ((test_account_connection mgr s w i).2.1, (test_account_connection mgr s w i).2.2)
  | .execTrade i d =>
    ((execute_trade_for_account mgr s w i d).2.1,
      (execute_trade_for_account mgr s w i d).2.2)
  | .processHook key d =>
    ((process_webhook_for_account mgr s w key d).2.1,
      (process_webhook_for_account mgr s w key d).2.2)
  | .deleteAcc i =>
    ((manager_delete_account mgr s i).2.1, (manager_delete_account mgr s i).2.2)

/-- C7 (confirmed): across every operation of the multi-account manager,
every durable account row survives (matched by id) with
never-decreasing `total`/`successful`/`failed` counters, the working
copy stays a monotone successor of the durable table, and the invariant
`successful + failed ≤ total` is preserved on both copies (it holds
initially since every account is created with all-zero counters, for
which `0 + 0 ≤ 0`). -/
theorem c7_counters_monotone (w : World) (mgr : MgrState) (s : Sess) (op : MgrOp)
    (hcoh : accountsMono s.committed.accounts s.working.accounts) :
    accountsMono s.committed.accounts ((mgrStep w mgr s op).2).committed.accounts ∧
    accountsMono ((mgrStep w mgr s op).2).committed.accounts
      ((mgrStep w mgr s op).2).working.accounts ∧
    ((allInv s.committed ∧ allInv s.working) →
      allInv ((mgrStep w mgr s op).2).committed ∧
      allInv ((mgrStep w mgr s op).2).working) := by
  have hmi : MonoInv s ((mgrStep w mgr s op).2) := by
    cases op
    · exact mi_create s w _
    · exact mi_tconn mgr s w _
    · exact mi_exec mgr s w _ _
    · exact mi_pwfa mgr s w _ _
    · exact mi_delete mgr s _
  exact ⟨(hmi.1 hcoh).1, (hmi.1 hcoh).2, hmi.2⟩

/-- C7 (witness): one concrete trade-processing step from the clean
fixture state. -/
theorem c7_counters_monotone_witness :
    accountsMono (Sess.clean db0).committed.accounts
      ((mgrStep w0 [] (Sess.clean db0) (.processHook "abc-key" pBuy)).2).committed.accounts ∧
    accountsMono
      ((mgrStep w0 [] (Sess.clean db0) (.processHook "abc-key" pBuy)).2).committed.accounts
      ((mgrStep w0 [] (Sess.clean db0) (.processHook "abc-key" pBuy)).2).working.accounts ∧
    ((allInv (Sess.clean db0).committed ∧ allInv (Sess.clean db0).working) →
      allInv ((mgrStep w0 [] (Sess.clean db0) (.processHook "abc-key" pBuy)).2).committed ∧
      allInv ((mgrStep w0 [] (Sess.clean db0) (.processHook "abc-key" pBuy)).2).working) :=
  c7_counters_monotone w0 [] (Sess.clean db0) (.processHook "abc-key" pBuy)
    (accountsMono_refl _)
